import Mathlib

/-!
# Graphics_CookBook: the recipes `STB_Basics` and `ImGui_Demo`

Each recipe is one `main` function that talks to a windowing library, a graphics
API, an image codec and an immediate-mode GUI library.  The embedding below turns
each `main` into a function from the answers of those libraries (an environment)
to the sequence of library calls it issues (a trace), the text written to standard
error, the window's should-close flag and the exit status.

Conventions
* `int` values are `Int`, `unsigned` values and container sizes are `Nat`;
* `float`/`double` values are rationals (`ℚ`).  The scissor box is computed as the
  program computes it: every `float` subtraction and every conversion `int` to
  `float` rounds to single precision (`roundF32`), and the conversion `(int)` of a
  `float` is defined only inside the range of a 32-bit `int` (`toInt`).  The
  projection matrix is computed in exact rational arithmetic, and the conversion
  `double` to `float` of a cursor position is not rounded;
* a call whose arguments play no role in any statement is recorded as `Call.api`
  with the name of the function called;
* calls that only read the state of a library (`glfwWindowShouldClose`,
  `glfwGetFramebufferSize`, `glfwGetTime`, `glfwGetProcAddress`, `ImGui::GetIO`,
  `ImGui::GetDrawData`) and the functions of the mathematics library are not
  recorded: what they return is part of the environment.
-/

namespace GraphicsCookBook

/-! ## Constants of the library headers

The headers of the libraries are not part of the sources; the constants the two
programs use are given the values those headers declare. -/

/-- Modelled from the spec: `GLFW_RELEASE` is declared in `GLFW/glfw3.h`, which is
not part of the sources; its value there is 0. -/
def GLFW_RELEASE : Int := 0

/-- Modelled from the spec: `GLFW_PRESS` is declared in `GLFW/glfw3.h`, which is
not part of the sources; its value there is 1. -/
def GLFW_PRESS : Int := 1

/-- Modelled from the spec: `GLFW_KEY_ESCAPE` is declared in `GLFW/glfw3.h`, which
is not part of the sources; its value there is 256. -/
def GLFW_KEY_ESCAPE : Int := 256

/-- Modelled from the spec: `GLFW_KEY_F9` is declared in `GLFW/glfw3.h`, which is
not part of the sources; its value there is 298. -/
def GLFW_KEY_F9 : Int := 298

/-- Modelled from the spec: `GLFW_MOUSE_BUTTON_LEFT` is declared in `GLFW/glfw3.h`,
which is not part of the sources; its value there is 0. -/
def GLFW_MOUSE_BUTTON_LEFT : Int := 0

/-- Modelled from the spec: `GLFW_MOUSE_BUTTON_RIGHT` is declared in
`GLFW/glfw3.h`, which is not part of the sources; its value there is 1. -/
def GLFW_MOUSE_BUTTON_RIGHT : Int := 1

/-- Modelled from the spec: `EXIT_SUCCESS` is declared in `stdlib.h`; its value is 0. -/
def EXIT_SUCCESS : Int := 0

/-- Modelled from the spec: `EXIT_FAILURE` is declared in `stdlib.h`; its value is 1. -/
def EXIT_FAILURE : Int := 1

/-- Modelled from the spec: `mat4` is declared by the mathematics library, which is
not part of the sources; `sizeof(mat4)` is 64, sixteen 4-byte floats. -/
def sizeof_mat4 : Int := 64

/-- Modelled from the spec: `ImDrawVert` is declared by the GUI library, which is
not part of the sources.  The recipe describes it as `vec2 pos, vec2 uv, u32 color`:
`sizeof(ImDrawVert)` is 20 bytes. -/
def sizeof_ImDrawVert : Int := 20

/-- Modelled from the spec: `ImDrawIdx` is declared by the GUI library, which is not
part of the sources.  It is a 16-bit index (the recipe draws with
`GL_UNSIGNED_SHORT`): `sizeof(ImDrawIdx)` is 2 bytes. -/
def sizeof_ImDrawIdx : Int := 2

/-! ## Vectors and matrices (`glm`, `ImVec2`, `ImVec4`) -/

/-- `ImVec2`. -/
structure ImVec2 where
  x : ℚ
  y : ℚ
deriving DecidableEq

/-- `ImVec4`; for a clip rectangle `(x, y)` is the top-left and `(z, w)` the bottom-right corner. -/
structure ImVec4 where
  x : ℚ
  y : ℚ
  z : ℚ
  w : ℚ
deriving DecidableEq

/-- `glm::vec4`. -/
structure Vec4 where
  x : ℚ
  y : ℚ
  z : ℚ
  w : ℚ
deriving DecidableEq

/-- `glm::mat4`, column-major: `c0` ... `c3` are the columns `m[0]` ... `m[3]`. -/
structure Mat4 where
  c0 : Vec4
  c1 : Vec4
  c2 : Vec4
  c3 : Vec4
deriving DecidableEq

/-- The product `m * v` of a matrix and a column vector (`MVP * vec4(...)` in the
vertex shaders). -/
def Mat4.mulVec (m : Mat4) (v : Vec4) : Vec4 :=
  { x := m.c0.x * v.x + m.c1.x * v.y + m.c2.x * v.z + m.c3.x * v.w
    y := m.c0.y * v.x + m.c1.y * v.y + m.c2.y * v.z + m.c3.y * v.w
    z := m.c0.z * v.x + m.c1.z * v.y + m.c2.z * v.z + m.c3.z * v.w
    w := m.c0.w * v.x + m.c1.w * v.y + m.c2.w * v.z + m.c3.w * v.w }

/-- A division that records a zero divisor as `none`. -/
def divide (a b : ℚ) : Option ℚ :=
  if b = 0 then none else some (a / b)

/-- Modelled from the spec: `glm::ortho(left, right, bottom, top)` belongs to the
mathematics library, whose sources are not part of the repository.  It is the
orthographic projection of that library: the identity matrix with
`m[0][0] = 2 / (right - left)`, `m[1][1] = 2 / (top - bottom)`, `m[2][2] = -1`,
`m[3][0] = -(right + left) / (right - left)` and
`m[3][1] = -(top + bottom) / (top - bottom)`.  The result is `none` when one of
the four divisions has a zero divisor. -/
def ortho (left right bottom top : ℚ) : Option Mat4 :=
  (divide 2 (right - left)).bind fun m00 =>
  (divide 2 (top - bottom)).bind fun m11 =>
  (divide (-(right + left)) (right - left)).bind fun m30 =>
  (divide (-(top + bottom)) (top - bottom)).bind fun m31 =>
    some { c0 := ⟨m00, 0, 0, 0⟩
           c1 := ⟨0, m11, 0, 0⟩
           c2 := ⟨0, 0, -1, 0⟩
           c3 := ⟨m30, m31, 0, 1⟩ }

/-! ## Single-precision arithmetic and the conversion to `int` -/

/-- Modelled from the spec: `FLT_MAX` is declared in `float.h`; its value is
`(2 ^ 24 - 1) * 2 ^ 104`, the largest finite `float`. -/
def FLT_MAX : ℚ := (2 ^ 24 - 1) * 2 ^ 104

/-- Modelled from the spec: `INT_MIN` is declared in `limits.h`; for a 32-bit `int`
its value is `-2 ^ 31`. -/
def INT_MIN : Int := -2 ^ 31

/-- Modelled from the spec: `INT_MAX` is declared in `limits.h`; for a 32-bit `int`
its value is `2 ^ 31 - 1`. -/
def INT_MAX : Int := 2 ^ 31 - 1

/-- Rounding of a non-negative rational to the nearest integer, ties to the even one. -/
def roundHalfEven (x : ℚ) : Int :=
  if x - ⌊x⌋ < 1 / 2 then ⌊x⌋
  else if 1 / 2 < x - ⌊x⌋ then ⌊x⌋ + 1
  else if ⌊x⌋ % 2 = 0 then ⌊x⌋ else ⌊x⌋ + 1

/-- The `float` nearest to a real number (IEEE 754 binary32, round to nearest, ties
to even): a 24-bit significand times `2 ^ e` with `e ≥ -149`.  The result is `none`
when the rounded magnitude exceeds `FLT_MAX` (the `float` is then infinite). -/
def roundF32 (q : ℚ) : Option ℚ :=
  let e : Int := max (Int.log 2 |q| - 23) (-149)
  let r : ℚ := (roundHalfEven (|q| / 2 ^ e) : ℚ) * 2 ^ e
  if r ≤ FLT_MAX then some (if q < 0 then -r else r) else none

/-- The conversion of an `int` to `float`. -/
def intToFloat (n : Int) : Option ℚ :=
  roundF32 (n : ℚ)

/-- The subtraction `a - b` of two `float` values. -/
def fsub (a b : ℚ) : Option ℚ :=
  roundF32 (a - b)

/-- The C++ conversion `(int)f` of a `float`: truncation toward zero, `none`
(undefined) when the truncated value is outside the range of a 32-bit `int`. -/
def toInt (f : ℚ) : Option Int :=
  let t : Int := if 0 ≤ f then ⌊f⌋ else ⌈f⌉
  if INT_MIN ≤ t ∧ t ≤ INT_MAX then some t else none

/-! ## Graphics objects and recorded calls -/

/-- The kinds of graphics objects the recipes create. -/
inductive ObjKind where
  | vertexArray
  | buffer
  | shader
  | program
  | texture
deriving DecidableEq, Repr

/-- The variables of the two `main` functions that hold the name of a graphics object. -/
inductive Handle where
  | VAO
  | handleVBO
  | handleElements
  | handleVertex
  | handleFragment
  | shaderVertex
  | shaderFragment
  | program
  | perFrameDataBuffer
  | texture
deriving DecidableEq, Repr

/-- The client pixel formats used by the texture uploads. -/
inductive PixelFormat where
  | GL_RGB
  | GL_RGBA
deriving DecidableEq, Repr

/-- Number of components of a pixel of the given format (one byte each for `GL_UNSIGNED_BYTE`). -/
def PixelFormat.components : PixelFormat → Int
  | .GL_RGB => 3
  | .GL_RGBA => 4

/-- The sized internal formats used for texture storage. -/
inductive InternalFormat where
  | GL_RGB8
  | GL_RGBA8
deriving DecidableEq, Repr

/-- What a buffer update copies from client memory. -/
inductive Payload where
  | matrix (m : Option Mat4)
  | vertices
  | indices
  | perFrameData
deriving DecidableEq

/-- A library call issued by one of the recipes.  The arguments of `glScissor` are
`none` where the program converts to `int` a `float` that has no `int` value. -/
inductive Call where
  | glfwSetErrorCallback
  | glfwInit
  | glfwCreateWindow (width height : Int)
  | glfwTerminate
  | glfwDestroyWindow
  | glfwSetWindowShouldClose (value : Bool)
  | exit (status : Int)
  | glCreate (kind : ObjKind) (h : Handle)
  | glDelete (kind : ObjKind) (h : Handle)
  | glNamedBufferStorage (buffer : Handle) (size : Int)
  | glNamedBufferSubData (buffer : Handle) (offset size : Int) (data : Payload)
  | glPixelStoreiUnpackAlignment (value : Int)
  | glTextureStorage2D (tex : Handle) (fmt : InternalFormat) (width height : Int)
  | glTextureSubImage2D (tex : Handle) (xoffset yoffset width height : Int) (fmt : PixelFormat)
  | glScissor (x y width height : Option Int)
  | glBindTextureUnit (unit : Nat) (tex : Nat)
  | glDrawElementsBaseVertex (count : Nat) (byteOffset : Int) (basevertex : Nat)
  | glDrawArrays (first count : Int)
  | malloc (size : Int)
  | glReadPixels (x y width height : Int)
  | stbi_write_png (width height comp : Int)
  | api (name : String)
deriving DecidableEq

/-! ## Program state -/

/-- The observable state of a running recipe: the calls issued so far, the text
written to standard error, the window's should-close flag, and the state `gui` of
the GUI library (`Unit` for the recipe that has none). -/
structure ProgState (G : Type) where
  trace : List Call
  stderr : String
  shouldClose : Bool
  gui : G

/-- Record calls at the end of the trace. -/
def emit {G : Type} (s : ProgState G) (cs : List Call) : ProgState G :=
  { s with trace := s.trace ++ cs }

/-- The state in which `main` starts. -/
def ProgState.start {G : Type} (g : G) : ProgState G :=
  { trace := [], stderr := "", shouldClose := false, gui := g }

/-- The error callback both recipes install:
`fprintf( stderr, "Error: %s\n", description )`. -/
def errorCallback {G : Type} (s : ProgState G) (_error : Int) (description : String) :
    ProgState G :=
  { s with stderr := s.stderr ++ ("Error: " ++ description ++ "\n") }

/-- The library reports errors by calling the installed error callback. -/
def reportErrors {G : Type} (s : ProgState G) (errors : List (Int × String)) : ProgState G :=
  errors.foldl (fun t e => errorCallback t e.1 e.2) s

/-- The effect of `glfwSetWindowShouldClose(window, value)`. -/
def glfwSetWindowShouldClose {G : Type} (s : ProgState G) (value : Bool) : ProgState G :=
  { s with trace := s.trace ++ [Call.glfwSetWindowShouldClose value], shouldClose := value }

/-- What `glfwPollEvents` can deliver. `close` is the window system's close
request, on which the windowing library sets the should-close flag itself. -/
inductive Event where
  | key (key scancode action mods : Int)
  | cursorPos (x y : ℚ)
  | mouseButton (button action mods : Int)
  | error (code : Int) (description : String)
  | close

/-- The events on which both recipes set the should-close flag: a press of Escape
and a close request. -/
def Event.closes : Event → Bool
  | .key k _ a _ => decide (k = GLFW_KEY_ESCAPE ∧ a = GLFW_PRESS)
  | .close => true
  | _ => false

/-- The loop `while (!glfwWindowShouldClose(window)) body`, run on the inputs of
the successive iterations.  The `Bool` tells whether the loop was left (the flag
was found set); it is `false` when the supplied inputs ended with the window still
open. -/
def renderLoop {F G : Type} (body : F → ProgState G → ProgState G) :
    List F → ProgState G → ProgState G × Bool
  | [], s => (s, s.shouldClose)
  | f :: fs, s => if s.shouldClose then (s, true) else renderLoop body fs (body f s)

/-- The result of running `main`: the final state and the exit status, `none` when
the program is still in its render loop after the supplied inputs. -/
structure Run (G : Type) where
  state : ProgState G
  exitStatus : Option Int

/-! ## Observations on a trace -/

/-- The effect of one call on the list of live graphics objects. -/
def liveStep (live : List Handle) : Call → List Handle
  | .glCreate _ h => live ++ [h]
  | .glDelete _ h => live.filter (fun k => k ≠ h)
  | _ => live

/-- The graphics objects created and not yet deleted after the given calls. -/
def liveObjects (live : List Handle) (cs : List Call) : List Handle :=
  cs.foldl liveStep live

/-- The graphics objects that are live when `glfwDestroyWindow` is called
(`none` when the trace never reaches that call). -/
def liveAtDestroyWindow : List Handle → List Call → Option (List Handle)
  | _, [] => none
  | live, .glfwDestroyWindow :: _ => some live
  | live, c :: cs => liveAtDestroyWindow (liveStep live c) cs

/-- Modelled from the spec: the row stride of a pixel transfer is computed inside
the graphics library, whose sources are not part of the repository.  For
one-byte components the rows of an image of `width` pixels with `components`
components each start `alignment * ceil(components * width / alignment)` bytes
apart, `alignment` being the current `GL_UNPACK_ALIGNMENT`. -/
def unpackRowStride (alignment components width : Int) : Int :=
  alignment * ((components * width + alignment - 1) / alignment)

/-- Modelled from the spec: the number of bytes a pixel transfer reads from client
memory (computed inside the graphics library): all rows but the last at the row
stride, and the last row unpadded. -/
def unpackBytesRead (alignment components width height : Int) : Int :=
  if width ≤ 0 ∨ height ≤ 0 then 0
  else (height - 1) * unpackRowStride alignment components width + components * width

/-- One texture upload as the graphics library performs it. -/
structure TexUpload where
  tex : Handle
  rowStride : Int
  bytesRead : Int
deriving DecidableEq

/-- The texture uploads of a trace, `alignment` being the unpack alignment in
force at its start; `glPixelStorei(GL_UNPACK_ALIGNMENT, v)` changes it. -/
def textureUploads : Int → List Call → List TexUpload
  | _, [] => []
  | _, .glPixelStoreiUnpackAlignment v :: cs => textureUploads v cs
  | a, .glTextureSubImage2D t _ _ w h fmt :: cs =>
      { tex := t
        rowStride := unpackRowStride a fmt.components w
        bytesRead := unpackBytesRead a fmt.components w h } :: textureUploads a cs
  | a, _ :: cs => textureUploads a cs

/-- Modelled from the spec: the initial value of `GL_UNPACK_ALIGNMENT` is set inside
the graphics library, whose sources are not part of the repository; it is 4. -/
def defaultUnpackAlignment : Int := 4

/-- The size given to a buffer by the last `glNamedBufferStorage` on it. -/
def bufferStorage (buffer : Handle) : List Call → Option Int
  | [] => none
  | .glNamedBufferStorage b size :: cs =>
      match bufferStorage buffer cs with
      | some later => some later
      | none => if b = buffer then some size else none
  | _ :: cs => bufferStorage buffer cs

/-- A buffer update of `size` bytes at `offset` stays inside `storage` bytes. -/
def fitsStorage (storage offset size : Int) : Bool :=
  decide (0 ≤ offset ∧ 0 ≤ size ∧ offset + size ≤ storage)

/-- Calls that neither create nor delete a graphics object, nor destroy the
window, nor touch the pixel-store state, texture contents or buffer storage. -/
def Call.isRenderCall : Call → Bool
  | .glCreate _ _ => false
  | .glDelete _ _ => false
  | .glfwDestroyWindow => false
  | .glPixelStoreiUnpackAlignment _ => false
  | .glTextureSubImage2D _ _ _ _ _ _ => false
  | .glNamedBufferStorage _ _ => false
  | _ => true

/-- The state `t` is reached from `s` by issuing render calls only. -/
def ProgState.Extends {G : Type} (s t : ProgState G) : Prop :=
  ∃ ex : List Call, t.trace = s.trace ++ ex ∧ ∀ c ∈ ex, c.isRenderCall = true

/-- The graphics objects a trace creates, in creation order. -/
def createdObjects : List Call → List Handle
  | [] => []
  | .glCreate _ h :: cs => h :: createdObjects cs
  | _ :: cs => createdObjects cs

/-- The draw calls of `ImGui_Demo`. -/
def Call.isDraw : Call → Bool
  | .glDrawElementsBaseVertex _ _ _ => true
  | _ => false

/-- The scissor calls. -/
def Call.isScissor : Call → Bool
  | .glScissor _ _ _ _ => true
  | _ => false

/-- The updates of the given buffer. -/
def Call.isUpdateOf (buffer : Handle) : Call → Bool
  | .glNamedBufferSubData b _ _ _ => decide (b = buffer)
  | _ => false

/-! ## The recipe `STB_Basics` -/

namespace STB_Basics

/-- The array `pos` of the vertex shader. -/
def pos : List (ℚ × ℚ) := [(-6 / 10, -4 / 10), (6 / 10, -4 / 10), (0, 6 / 10)]

/-- The array `tc` of the vertex shader. -/
def tc : List (ℚ × ℚ) := [(0, 0), (1, 0), (1 / 2, 1)]

/-- The vertex shader's `main`: `gl_Position = MVP * vec4(pos[gl_VertexID], 0.0, 1.0)`
and `uv = tc[gl_VertexID]`.  The result is `none` when `gl_VertexID` is not an
index of the two arrays. -/
def vertexShader (MVP : Mat4) (gl_VertexID : Nat) : Option (Vec4 × (ℚ × ℚ)) :=
  (pos[gl_VertexID]?).bind fun p =>
  (tc[gl_VertexID]?).bind fun t =>
    some (MVP.mulVec ⟨p.1, p.2, 0, 1⟩, t)

/-- The values of `gl_VertexID` for which a non-indexed draw call runs the vertex
shader: `first`, ..., `first + count - 1`. -/
def drawnVertexIDs : Call → List Nat
  | .glDrawArrays first count => List.range' first.toNat count.toNat
  | _ => []

/-- `kBufferSize = sizeof(PerFrameData)`, a structure holding one `mat4`. -/
def kBufferSize : Int := sizeof_mat4

/-- What the libraries answer during one iteration of the render loop. -/
structure Frame where
  /-- The framebuffer width reported by `glfwGetFramebufferSize`. -/
  width : Int
  /-- The framebuffer height reported by `glfwGetFramebufferSize`. -/
  height : Int
  /-- The events delivered by this iteration's `glfwPollEvents`. -/
  events : List Event

/-- What the libraries answer during one run of the recipe. -/
structure Env where
  /-- The result of `glfwInit()`. -/
  initOk : Bool
  /-- The errors reported during `glfwInit()`. -/
  initErrors : List (Int × String)
  /-- Whether `glfwCreateWindow` returns a window. -/
  windowOk : Bool
  /-- The errors reported during `glfwCreateWindow`. -/
  windowErrors : List (Int × String)
  /-- Whether the vertex shader compiles. -/
  vertexShaderCompiles : Bool
  /-- Whether the fragment shader compiles. -/
  fragmentShaderCompiles : Bool
  /-- Whether the program links. -/
  programLinks : Bool
  /-- Whether `stbi_load` returns an image. -/
  imageLoaded : Bool
  /-- The value of the variable `w` after `stbi_load`. -/
  w : Int
  /-- The value of the variable `h` after `stbi_load`. -/
  h : Int
  /-- The iterations of the render loop. -/
  frames : List Frame

/-- The key callback: Escape closes the window, F9 saves a screenshot of the
framebuffer, whose size is `width` x `height`. -/
def keyCallback (width height : Int) (s : ProgState Unit) (key _scancode action _mods : Int) :
    ProgState Unit :=
  let s1 := if key = GLFW_KEY_ESCAPE ∧ action = GLFW_PRESS
    then glfwSetWindowShouldClose s true else s
  if key = GLFW_KEY_F9 ∧ action = GLFW_PRESS then
    emit s1 [.malloc (width * height * 4),
      .glReadPixels 0 0 width height, .stbi_write_png width height 4, .api "free"]
  else s1

/-- Delivery of one event: this recipe installs a key callback and an error
callback; on a close request the windowing library sets the should-close flag
itself; cursor and mouse button events have no callback. -/
def dispatch (f : Frame) (s : ProgState Unit) : Event → ProgState Unit
  | .key key scancode action mods => keyCallback f.width f.height s key scancode action mods
  | .error code description => errorCallback s code description
  | .close => { s with shouldClose := true }
  | .cursorPos _ _ => s
  | .mouseButton _ _ _ => s

/-- The call `glfwPollEvents()` of one iteration. -/
def glfwPollEvents (f : Frame) (s : ProgState Unit) : ProgState Unit :=
  f.events.foldl (dispatch f) (emit s [.api "glfwPollEvents"])

/-- The calls of one iteration of the render loop before `glfwPollEvents`. -/
def frameCalls (_f : Frame) : List Call :=
  [.api "glViewport", .api "glClear", .api "glUseProgram",
   .glNamedBufferSubData .perFrameDataBuffer 0 kBufferSize .perFrameData,
   .glDrawArrays 0 36,
   .api "glfwSwapBuffers"]

/-- One iteration of the render loop. -/
def frame (f : Frame) (s : ProgState Unit) : ProgState Unit :=
  glfwPollEvents f (emit s (frameCalls f))

/-- The calls between the creation of the window and the render loop. -/
def setup (env : Env) : List Call :=
  [.api "glfwSetKeyCallback",
   .api "glfwMakeContextCurrent", .api "gladLoadGL", .api "glfwSwapInterval",
   .glCreate .shader .shaderVertex, .api "glShaderSource", .api "glCompileShader",
   .glCreate .shader .shaderFragment, .api "glShaderSource", .api "glCompileShader",
   .glCreate .program .program,
   .api "glAttachShader", .api "glAttachShader", .api "glLinkProgram",
   .glCreate .vertexArray .VAO, .api "glBindVertexArray",
   .glCreate .buffer .perFrameDataBuffer,
   .glNamedBufferStorage .perFrameDataBuffer kBufferSize,
   .api "glBindBufferRange",
   .api "glClearColor", .api "glEnable", .api "glEnable", .api "glPolygonOffset",
   .api "stbi_load",
   .glCreate .texture .texture,
   .api "glTextureParameteri", .api "glTextureParameteri", .api "glTextureParameteri",
   .glTextureStorage2D .texture .GL_RGB8 env.w env.h,
   .glPixelStoreiUnpackAlignment 1,
   .glTextureSubImage2D .texture 0 0 env.w env.h .GL_RGB,
   .api "glBindTextures",
   .api "stbi_image_free"]

/-- The calls after the render loop. -/
def teardown : List Call :=
  [.glDelete .texture .texture,
   .glDelete .buffer .perFrameDataBuffer,
   .glDelete .program .program,
   .glDelete .shader .shaderFragment,
   .glDelete .shader .shaderVertex,
   .glDelete .vertexArray .VAO,
   .glfwDestroyWindow,
   .glfwTerminate]

/-- The function `main` of `STB_Basics.cpp`. -/
def main (env : Env) : Run Unit :=
  let s0 := emit (ProgState.start ()) [.glfwSetErrorCallback]
  let s1 := reportErrors (emit s0 [.glfwInit]) env.initErrors
  if env.initOk = false then
    { state := emit s1 [.exit EXIT_FAILURE], exitStatus := some EXIT_FAILURE }
  else
    let s2 := emit s1 [.api "glfwWindowHint", .api "glfwWindowHint", .api "glfwWindowHint",
      .glfwCreateWindow 1024 768]
    let s3 := reportErrors s2 env.windowErrors
    if env.windowOk = false then
      { state := emit s3 [.glfwTerminate, .exit EXIT_FAILURE], exitStatus := some EXIT_FAILURE }
    else
      let s4 := emit s3 (setup env)
      match renderLoop frame env.frames s4 with
      | (s5, false) => { state := s5, exitStatus := none }
      | (s5, true) => { state := emit s5 teardown, exitStatus := some 0 } -- `return 0`

end STB_Basics

/-! ## The recipe `ImGui_Demo` -/

namespace ImGui_Demo

/-- The fields of the GUI library's `ImGuiIO` that the recipe writes. -/
structure ImGuiIOState where
  /-- `ImVec2 DisplaySize`. -/
  DisplaySize : ImVec2
  /-- `ImVec2 MousePos`. -/
  MousePos : ImVec2
  /-- `bool MouseDown[5]`. -/
  MouseDown : List Bool
deriving DecidableEq

/-- Modelled from the spec: the `ImGuiIO` of a new GUI context is set up inside the
GUI library, which is not part of the sources: no mouse button is down, the mouse
position is the invalid position `(-FLT_MAX, -FLT_MAX)` and the display size is
`(-1, -1)`. -/
def ImGuiIOState.fresh : ImGuiIOState :=
  { DisplaySize := ⟨-1, -1⟩
    MousePos := ⟨-FLT_MAX, -FLT_MAX⟩
    MouseDown := List.replicate 5 false }

/-- `ImDrawCmd`: one draw command of a command list. -/
structure ImDrawCmd where
  /-- `ImVec4 ClipRect`. -/
  ClipRect : ImVec4
  /-- `ImTextureID TextureId`. -/
  TextureId : Nat
  /-- `unsigned int VtxOffset`. -/
  VtxOffset : Nat
  /-- `unsigned int IdxOffset`. -/
  IdxOffset : Nat
  /-- `unsigned int ElemCount`. -/
  ElemCount : Nat
deriving DecidableEq

/-- `ImDrawList`: the commands of one list and the sizes of its index and vertex
buffers (`CmdBuffer.Size` is the length of `CmdBuffer`). -/
structure ImDrawList where
  /-- `ImVector<ImDrawCmd> CmdBuffer`. -/
  CmdBuffer : List ImDrawCmd
  /-- `IdxBuffer.Size`. -/
  IdxBufferSize : Nat
  /-- `VtxBuffer.Size`. -/
  VtxBufferSize : Nat
deriving DecidableEq

/-- `ImDrawData`: what `ImGui::GetDrawData()` returns (`CmdListsCount` is the
length of `CmdLists`). -/
structure ImDrawData where
  /-- `ImDrawList** CmdLists`. -/
  CmdLists : List ImDrawList
  /-- `ImVec2 DisplayPos`. -/
  DisplayPos : ImVec2
  /-- `ImVec2 DisplaySize`. -/
  DisplaySize : ImVec2
deriving DecidableEq

/-- What the libraries answer during one iteration of the render loop. -/
structure Frame where
  /-- The framebuffer width reported by `glfwGetFramebufferSize`. -/
  width : Int
  /-- The framebuffer height reported by `glfwGetFramebufferSize`. -/
  height : Int
  /-- The result of `ImGui::GetDrawData()`. -/
  draw_data : ImDrawData
  /-- The events delivered by this iteration's `glfwPollEvents`. -/
  events : List Event

/-- What the libraries answer during one run of the recipe. -/
structure Env where
  /-- The result of `glfwInit()`. -/
  initOk : Bool
  /-- The errors reported during `glfwInit()`. -/
  initErrors : List (Int × String)
  /-- Whether `glfwCreateWindow` returns a window. -/
  windowOk : Bool
  /-- The errors reported during `glfwCreateWindow`. -/
  windowErrors : List (Int × String)
  /-- Whether the vertex shader compiles. -/
  vertexShaderCompiles : Bool
  /-- Whether the fragment shader compiles. -/
  fragmentShaderCompiles : Bool
  /-- Whether the program links. -/
  programLinks : Bool
  /-- Whether `AddFontFromFileTTF` returns a font. -/
  fontLoaded : Bool
  /-- The atlas width stored by `GetTexDataAsRGBA32`. -/
  width : Int
  /-- The atlas height stored by `GetTexDataAsRGBA32`. -/
  height : Int
  /-- The iterations of the render loop. -/
  frames : List Frame

/-- The key callback: Escape closes the window. -/
def keyCallback (s : ProgState ImGuiIOState) (key _scancode action _mods : Int) :
    ProgState ImGuiIOState :=
  if key = GLFW_KEY_ESCAPE ∧ action = GLFW_PRESS then glfwSetWindowShouldClose s true else s

/-- The cursor position callback:
`ImGui::GetIO().MousePos = ImVec2((float)x, (float)y)`. -/
def cursorPosCallback (s : ProgState ImGuiIOState) (x y : ℚ) : ProgState ImGuiIOState :=
  { s with gui := { s.gui with MousePos := ⟨x, y⟩ } }

/-- The index `idx` computed by the mouse button callback. -/
def mouseButtonIndex (button : Int) : Nat :=
  if button = GLFW_MOUSE_BUTTON_LEFT then 0
  else if button = GLFW_MOUSE_BUTTON_RIGHT then 2
  else 1

/-- The mouse button callback: `MouseDown[idx] = action == GLFW_PRESS`. -/
def mouseButtonCallback (s : ProgState ImGuiIOState) (button action _mods : Int) :
    ProgState ImGuiIOState :=
  let idx := mouseButtonIndex button
  { s with gui := { s.gui with
      MouseDown := s.gui.MouseDown.set idx (decide (action = GLFW_PRESS)) } }

/-- Delivery of one event to the callback installed for it; on a close request the
windowing library sets the should-close flag itself. -/
def dispatch (s : ProgState ImGuiIOState) : Event → ProgState ImGuiIOState
  | .key key scancode action mods => keyCallback s key scancode action mods
  | .cursorPos x y => cursorPosCallback s x y
  | .mouseButton button action mods => mouseButtonCallback s button action mods
  | .error code description => errorCallback s code description
  | .close => { s with shouldClose := true }

/-- The call `glfwPollEvents()` of one iteration. -/
def glfwPollEvents (f : Frame) (s : ProgState ImGuiIOState) : ProgState ImGuiIOState :=
  f.events.foldl dispatch (emit s [.api "glfwPollEvents"])

/-- The projection matrix of a frame: `glm::ortho(L, R, B, T)` with `L`, `R`, `T`,
`B` taken from the display position and size of the draw data. -/
def orthoProj (draw_data : ImDrawData) : Option Mat4 :=
  let L := draw_data.DisplayPos.x
  let R := draw_data.DisplayPos.x + draw_data.DisplaySize.x
  let T := draw_data.DisplayPos.y
  let B := draw_data.DisplayPos.y + draw_data.DisplaySize.y
  ortho L R B T

/-- The scissor call of a draw command:
`glScissor((int)cr.x, (int)(height - cr.w), (int)(cr.z - cr.x), (int)(cr.w - cr.y))`.
The components of `cr` are `float`, `height` is an `int`: `height` is converted to
`float` and the three subtractions are `float` subtractions. -/
def scissorCall (height : Int) (cr : ImVec4) : Call :=
  .glScissor (toInt cr.x)
    ((intToFloat height).bind fun hf => (fsub hf cr.w).bind toInt)
    ((fsub cr.z cr.x).bind toInt)
    ((fsub cr.w cr.y).bind toInt)

/-- The draw call of a draw command. -/
def drawCall (pcmd : ImDrawCmd) : Call :=
  .glDrawElementsBaseVertex pcmd.ElemCount ((pcmd.IdxOffset : Int) * sizeof_ImDrawIdx)
    pcmd.VtxOffset

/-- The body of the inner loop: the calls issued for one draw command. -/
def renderCmd (height : Int) (pcmd : ImDrawCmd) : List Call :=
  [scissorCall height pcmd.ClipRect, .glBindTextureUnit 0 pcmd.TextureId, drawCall pcmd]

/-- The upload of the vertices of a command list. -/
def vertexUpload (cmd_list : ImDrawList) : Call :=
  .glNamedBufferSubData .handleVBO 0 ((cmd_list.VtxBufferSize : Int) * sizeof_ImDrawVert) .vertices

/-- The upload of the indices of a command list. -/
def indexUpload (cmd_list : ImDrawList) : Call :=
  .glNamedBufferSubData .handleElements 0 ((cmd_list.IdxBufferSize : Int) * sizeof_ImDrawIdx)
    .indices

/-- The body of the outer loop: the calls issued for one command list. -/
def renderCmdList (height : Int) (cmd_list : ImDrawList) : List Call :=
  [vertexUpload cmd_list, indexUpload cmd_list] ++ cmd_list.CmdBuffer.flatMap (renderCmd height)

/-- The loop over the command lists of the draw data. -/
def renderDrawData (height : Int) (draw_data : ImDrawData) : List Call :=
  draw_data.CmdLists.flatMap (renderCmdList height)

/-- The calls of one iteration of the render loop before `glfwPollEvents`. -/
def frameCalls (f : Frame) : List Call :=
  [.api "glViewport", .api "glClear",
   .api "ImGui::NewFrame", .api "ImGui::ShowDemoWindow", .api "ImGui::Render",
   .glNamedBufferSubData .perFrameDataBuffer 0 sizeof_mat4 (.matrix (orthoProj f.draw_data))]
  ++ renderDrawData f.height f.draw_data
  ++ [.glScissor (some 0) (some 0) (some f.width) (some f.height), .api "glfwSwapBuffers"]

/-- One iteration of the render loop. -/
def frame (f : Frame) (s : ProgState ImGuiIOState) : ProgState ImGuiIOState :=
  let s1 := { s with gui := { s.gui with DisplaySize := ⟨f.width, f.height⟩ } }
  glfwPollEvents f (emit s1 (frameCalls f))

/-- The size of the storage of `handleVBO`. -/
def vertexStorage : Int := 128 * 1024

/-- The size of the storage of `handleElements`. -/
def elementStorage : Int := 256 * 1024

/-- Whether a buffer update stays inside `storage` bytes (calls that are no buffer
update pass). -/
def uploadFits (storage : Int) : Call → Bool
  | .glNamedBufferSubData _ offset size _ => fitsStorage storage offset size
  | _ => true

/-- The calls between the creation of the window and the render loop. -/
def setup (env : Env) : List Call :=
  [.api "glfwSetKeyCallback", .api "glfwSetCursorPosCallback", .api "glfwSetMouseButtonCallback",
   .api "glfwMakeContextCurrent", .api "gladLoadGL", .api "glfwSwapInterval",
   .glCreate .vertexArray .VAO,
   .glCreate .buffer .handleVBO,
   .glNamedBufferStorage .handleVBO vertexStorage,
   .glCreate .buffer .handleElements,
   .glNamedBufferStorage .handleElements elementStorage,
   .api "glVertexArrayElementBuffer", .api "glVertexArrayVertexBuffer",
   .api "glEnableVertexArrayAttrib", .api "glEnableVertexArrayAttrib",
   .api "glEnableVertexArrayAttrib",
   .api "glVertexArrayAttribFormat", .api "glVertexArrayAttribFormat",
   .api "glVertexArrayAttribFormat",
   .api "glVertexArrayAttribBinding", .api "glVertexArrayAttribBinding",
   .api "glVertexArrayAttribBinding",
   .api "glBindVertexArray",
   .glCreate .shader .handleVertex, .api "glShaderSource", .api "glCompileShader",
   .glCreate .shader .handleFragment, .api "glShaderSource", .api "glCompileShader",
   .glCreate .program .program,
   .api "glAttachShader", .api "glAttachShader", .api "glLinkProgram", .api "glUseProgram",
   .glCreate .buffer .perFrameDataBuffer,
   .glNamedBufferStorage .perFrameDataBuffer sizeof_mat4,
   .api "glBindBufferBase",
   .api "ImGui::CreateContext",
   .api "AddFontFromFileTTF", .api "GetTexDataAsRGBA32",
   .glCreate .texture .texture,
   .api "glTextureParameteri", .api "glTextureParameteri", .api "glTextureParameteri",
   .glTextureStorage2D .texture .GL_RGBA8 env.width env.height,
   .glPixelStoreiUnpackAlignment 1,
   .glTextureSubImage2D .texture 0 0 env.width env.height .GL_RGBA,
   .api "glBindTextures",
   .api "glEnable", .api "glBlendEquation", .api "glBlendFunc",
   .api "glDisable", .api "glDisable", .api "glEnable",
   .api "glClearColor"]

/-- The calls after the render loop. -/
def teardown : List Call :=
  [.api "ImGui::DestroyContext", .glfwDestroyWindow, .glfwTerminate, .exit EXIT_SUCCESS]

/-- The function `main` of `ImGui_Demo.cpp`. -/
def main (env : Env) : Run ImGuiIOState :=
  let s0 := emit (ProgState.start ImGuiIOState.fresh) [.glfwSetErrorCallback]
  let s1 := reportErrors (emit s0 [.glfwInit]) env.initErrors
  if env.initOk = false then
    { state := emit s1 [.exit EXIT_FAILURE], exitStatus := some EXIT_FAILURE }
  else
    let s2 := emit s1 [.api "glfwWindowHint", .api "glfwWindowHint", .api "glfwWindowHint",
      .glfwCreateWindow 1024 768]
    let s3 := reportErrors s2 env.windowErrors
    if env.windowOk = false then
      { state := emit s3 [.glfwTerminate, .exit EXIT_FAILURE], exitStatus := some EXIT_FAILURE }
    else
      let s4 := emit s3 (setup env)
      match renderLoop frame env.frames s4 with
      | (s5, false) => { state := s5, exitStatus := none }
      | (s5, true) => { state := emit s5 teardown, exitStatus := some EXIT_SUCCESS }

end ImGui_Demo

end GraphicsCookBook

/-! # Properties -/

namespace GraphicsCookBook

/-! ## The mouse button callback of `ImGui_Demo` -/

section MouseButton
open ImGui_Demo

theorem mouseButtonIndex_lt (button : Int) : mouseButtonIndex button < 5 := by
  unfold mouseButtonIndex
  split_ifs <;> decide

/-- C9: for every mouse-button event the callback of `ImGui_Demo` writes exactly
one entry of the 5-entry `MouseDown` array: the index is 0 for the left button, 2
for the right button and 1 for every other button code, it is in range, the value
written is `true` exactly when the action is a press, every other entry and every
other part of the program state is unchanged. -/
theorem mouseButtonCallback_writes_one_entry (s : ProgState ImGuiIOState)
    (button action mods : Int) (h5 : s.gui.MouseDown.length = 5) :
    (button = GLFW_MOUSE_BUTTON_LEFT → mouseButtonIndex button = 0) ∧
    (button = GLFW_MOUSE_BUTTON_RIGHT → mouseButtonIndex button = 2) ∧
    (button ≠ GLFW_MOUSE_BUTTON_LEFT → button ≠ GLFW_MOUSE_BUTTON_RIGHT →
      mouseButtonIndex button = 1) ∧
    mouseButtonIndex button < 5 ∧
    (mouseButtonCallback s button action mods).gui.MouseDown.length = 5 ∧
    (mouseButtonCallback s button action mods).gui.MouseDown[mouseButtonIndex button]? =
      some (decide (action = GLFW_PRESS)) ∧
    ((mouseButtonCallback s button action mods).gui.MouseDown[mouseButtonIndex button]? =
      some true ↔ action = GLFW_PRESS) ∧
    (∀ j : Nat, j ≠ mouseButtonIndex button →
      (mouseButtonCallback s button action mods).gui.MouseDown[j]? = s.gui.MouseDown[j]?) ∧
    (mouseButtonCallback s button action mods).gui.MousePos = s.gui.MousePos ∧
    (mouseButtonCallback s button action mods).gui.DisplaySize = s.gui.DisplaySize ∧
    (mouseButtonCallback s button action mods).trace = s.trace ∧
    (mouseButtonCallback s button action mods).stderr = s.stderr ∧
    (mouseButtonCallback s button action mods).shouldClose = s.shouldClose := by
  have hlt : mouseButtonIndex button < s.gui.MouseDown.length := by
    rw [h5]; exact mouseButtonIndex_lt button
  have hget : (mouseButtonCallback s button action mods).gui.MouseDown[mouseButtonIndex button]? =
      some (decide (action = GLFW_PRESS)) := by
    simp only [mouseButtonCallback]
    rw [List.getElem?_set]
    simp [hlt]
  refine ⟨?_, ?_, ?_, mouseButtonIndex_lt button, ?_, hget, ?_, ?_, rfl, rfl, rfl, rfl, rfl⟩
  · intro h
    simp [mouseButtonIndex, h]
  · intro h
    simp [mouseButtonIndex, h, GLFW_MOUSE_BUTTON_RIGHT, GLFW_MOUSE_BUTTON_LEFT]
  · intro h1 h2
    simp [mouseButtonIndex, h1, h2]
  · simp [mouseButtonCallback, h5]
  · rw [hget]
    simp
  · intro j hj
    simp only [mouseButtonCallback]
    exact List.getElem?_set_ne (Ne.symm hj)

/-- C9 at a concrete event: from a fresh GUI state, a press of button 4 (neither
left nor right) sets entry 1 and nothing else. -/
theorem mouseButtonCallback_writes_one_entry_witness :
    (ProgState.start ImGuiIOState.fresh).gui.MouseDown.length = 5 ∧
    mouseButtonIndex 4 = 1 ∧
    (mouseButtonCallback (ProgState.start ImGuiIOState.fresh) 4 GLFW_PRESS 0).gui.MouseDown =
      [false, true, false, false, false] :=
  ⟨by decide,
   (mouseButtonCallback_writes_one_entry (ProgState.start ImGuiIOState.fresh) 4 GLFW_PRESS 0
      (by decide)).2.2.1 (by decide) (by decide),
   by decide⟩

end MouseButton

/-! ## The projection matrix of `ImGui_Demo` -/

section Projection
open ImGui_Demo

theorem divide_of_ne (a b : ℚ) (h : b ≠ 0) : divide a b = some (a / b) := by
  simp [divide, h]

theorem divide_zero (a : ℚ) : divide a 0 = none := by
  simp [divide]

theorem ortho_of_ne (left right bottom top : ℚ) (h1 : right - left ≠ 0)
    (h2 : top - bottom ≠ 0) :
    ortho left right bottom top =
      some { c0 := ⟨2 / (right - left), 0, 0, 0⟩
             c1 := ⟨0, 2 / (top - bottom), 0, 0⟩
             c2 := ⟨0, 0, -1, 0⟩
             c3 := ⟨-(right + left) / (right - left), -(top + bottom) / (top - bottom), 0, 1⟩ } := by
  simp only [ortho, divide_of_ne _ _ h1, divide_of_ne _ _ h2, Option.some_bind]

/-- C6: in exact rational arithmetic, for a display rectangle at `(px, py)` of
size `(sx, sy)` with `sx ≠ 0` and `sy ≠ 0` the per-frame matrix
`ortho(L, R, B, T)` (`L = px`, `R = px + sx`, `T = py`, `B = py + sy`) exists and
maps `(x, y, 0, 1)` to `(2(x - L)/(R - L) - 1, 1 - 2(y - T)/(B - T), 0, 1)`, the
top-left corner `(L, T)` to `(-1, +1)` and the bottom-right corner `(R, B)` to
`(+1, -1)`; with `sx = 0` or `sy = 0` the computation divides by zero. -/
theorem orthoProj_maps_display_rect (cmds : List ImDrawList) (px py sx sy x y : ℚ) :
    (sx ≠ 0 → sy ≠ 0 →
      ∃ m : Mat4,
        orthoProj { CmdLists := cmds, DisplayPos := ⟨px, py⟩, DisplaySize := ⟨sx, sy⟩ } = some m ∧
        m.mulVec ⟨x, y, 0, 1⟩ =
          ⟨2 * (x - px) / ((px + sx) - px) - 1, 1 - 2 * (y - py) / ((py + sy) - py), 0, 1⟩ ∧
        m.mulVec ⟨px, py, 0, 1⟩ = ⟨-1, 1, 0, 1⟩ ∧
        m.mulVec ⟨px + sx, py + sy, 0, 1⟩ = ⟨1, -1, 0, 1⟩) ∧
    (sx = 0 ∨ sy = 0 →
      orthoProj { CmdLists := cmds, DisplayPos := ⟨px, py⟩, DisplaySize := ⟨sx, sy⟩ } = none) := by
  constructor
  · intro hx hy
    have h1 : px + sx - px ≠ 0 := by simpa using hx
    have h2 : py - (py + sy) ≠ 0 := by
      intro h
      apply hy
      linarith
    have h3 : py + sy - py ≠ 0 := by simpa using hy
    have hm := ortho_of_ne px (px + sx) (py + sy) py h1 h2
    have e1 : px + sx - px = sx := by ring
    have e2 : py - (py + sy) = -sy := by ring
    have e3 : py + sy - py = sy := by ring
    refine ⟨_, hm, ?_, ?_, ?_⟩
    · simp only [Mat4.mulVec, Vec4.mk.injEq, e1, e2, e3, div_neg]
      refine ⟨?_, ?_, ?_, ?_⟩
      · field_simp
        ring
      · field_simp
        ring
      · ring
      · ring
    · simp only [Mat4.mulVec, Vec4.mk.injEq, e1, e2, e3, div_neg]
      refine ⟨?_, ?_, ?_, ?_⟩
      · field_simp
        ring
      · field_simp
        ring
      · ring
      · ring
    · simp only [Mat4.mulVec, Vec4.mk.injEq, e1, e2, e3, div_neg]
      refine ⟨?_, ?_, ?_, ?_⟩
      · field_simp
        ring
      · field_simp
        ring
      · ring
      · ring
  · rintro (h | h)
    · subst h
      simp [orthoProj, ortho, divide_zero]
    · subst h
      simp [orthoProj, ortho, divide_zero]

/-- C6 at concrete inputs: a 1024 x 768 display at the origin has a projection
matrix that sends its centre to the origin of clip space, and a display of
width 0 has none. -/
theorem orthoProj_maps_display_rect_witness :
    ((1024 : ℚ) ≠ 0 ∧ (768 : ℚ) ≠ 0 ∧
      ∃ m : Mat4,
        orthoProj { CmdLists := [], DisplayPos := ⟨0, 0⟩, DisplaySize := ⟨1024, 768⟩ } = some m ∧
        m.mulVec ⟨512, 384, 0, 1⟩ = ⟨0, 0, 0, 1⟩) ∧
    orthoProj { CmdLists := [], DisplayPos := ⟨0, 0⟩, DisplaySize := ⟨0, 768⟩ } = none := by
  refine ⟨⟨by norm_num, by norm_num, ?_⟩, ?_⟩
  · obtain ⟨m, hm, hxy, _, _⟩ :=
      (orthoProj_maps_display_rect [] 0 0 1024 768 512 384).1 (by norm_num) (by norm_num)
    refine ⟨m, hm, ?_⟩
    rw [hxy]
    norm_num
  · exact (orthoProj_maps_display_rect [] 0 0 0 768 0 0).2 (Or.inl rfl)

end Projection

/-! ## Buffer updates of `ImGui_Demo` against the buffer storage -/

section Storage
open ImGui_Demo

/-- C8: the vertex buffer of `ImGui_Demo` has 128 KiB and the element buffer
256 KiB of storage; for every command list the render loop issues the vertex
upload (vertex count * 20 bytes at offset 0) and the index upload (index
count * 2 bytes at offset 0) whatever their sizes; the vertex upload fits the
storage exactly when the list has at most 6553 vertices and the index upload
exactly when it has at most 131072 indices, and there are lists whose uploads
exceed the storage. -/
theorem uploads_not_bounds_checked (env : Env) (height : Int) (cmd_list : ImDrawList) :
    bufferStorage .handleVBO (setup env) = some (128 * 1024) ∧
    bufferStorage .handleElements (setup env) = some (256 * 1024) ∧
    vertexUpload cmd_list =
      .glNamedBufferSubData .handleVBO 0 ((cmd_list.VtxBufferSize : Int) * 20) .vertices ∧
    indexUpload cmd_list =
      .glNamedBufferSubData .handleElements 0 ((cmd_list.IdxBufferSize : Int) * 2) .indices ∧
    (∃ rest : List Call,
      renderCmdList height cmd_list = vertexUpload cmd_list :: indexUpload cmd_list :: rest) ∧
    (uploadFits (128 * 1024) (vertexUpload cmd_list) = true ↔ cmd_list.VtxBufferSize ≤ 6553) ∧
    (uploadFits (256 * 1024) (indexUpload cmd_list) = true ↔
      cmd_list.IdxBufferSize ≤ 131072) ∧
    (∃ big : ImDrawList, uploadFits (128 * 1024) (vertexUpload big) = false) ∧
    (∃ big : ImDrawList, uploadFits (256 * 1024) (indexUpload big) = false) := by
  refine ⟨?_, ?_, rfl, rfl, ⟨_, rfl⟩, ?_, ?_, ?_, ?_⟩
  · simp [setup, bufferStorage, vertexStorage]
  · simp [setup, bufferStorage, elementStorage]
  · simp only [vertexUpload, uploadFits, fitsStorage, sizeof_ImDrawVert, decide_eq_true_eq]
    constructor
    · rintro ⟨_, _, h⟩
      omega
    · intro h
      refine ⟨le_refl _, ?_, ?_⟩ <;> omega
  · simp only [indexUpload, uploadFits, fitsStorage, sizeof_ImDrawIdx, decide_eq_true_eq]
    constructor
    · rintro ⟨_, _, h⟩
      omega
    · intro h
      refine ⟨le_refl _, ?_, ?_⟩ <;> omega
  · exact ⟨{ CmdBuffer := [], IdxBufferSize := 0, VtxBufferSize := 6554 }, by decide⟩
  · exact ⟨{ CmdBuffer := [], IdxBufferSize := 131073, VtxBufferSize := 0 }, by decide⟩

end Storage

/-! ## The draw call of `STB_Basics` against the arrays of its vertex shader -/

section Triangle
open STB_Basics

/-- C4 (the code departs from the claim): in every iteration the render loop of
`STB_Basics` issues `glDrawArrays(GL_TRIANGLES, 0, 36)`, so the vertex shader runs
for the vertex indices 0, ..., 35, while `pos` and `tc` have 3 elements: index 3
is drawn, is not below 3, and indexes neither array. -/
theorem draw_count_exceeds_shader_arrays (f : Frame) (MVP : Mat4) :
    (frameCalls f).filter (fun c => decide (drawnVertexIDs c ≠ [])) = [.glDrawArrays 0 36] ∧
    (frameCalls f).flatMap drawnVertexIDs = List.range 36 ∧
    pos.length = 3 ∧ tc.length = 3 ∧
    3 ∈ (frameCalls f).flatMap drawnVertexIDs ∧
    ¬ (3 < pos.length) ∧
    pos[3]? = none ∧ tc[3]? = none ∧
    vertexShader MVP 3 = none ∧
    (∀ i : Nat, i < 3 → (vertexShader MVP i).isSome = true) := by
  have hids : (frameCalls f).flatMap drawnVertexIDs = List.range 36 := rfl
  refine ⟨rfl, hids, rfl, rfl, ?_, by decide, rfl, rfl, rfl, ?_⟩
  · rw [hids]
    decide
  intro i hi
  interval_cases i <;> rfl

end Triangle

/-! ## Traces of the render loop -/

section Traces
variable {G : Type}

theorem extends_refl (s : ProgState G) : s.Extends s :=
  ⟨[], by simp, by simp⟩

theorem extends_trans {s t u : ProgState G} (h1 : s.Extends t) (h2 : t.Extends u) :
    s.Extends u := by
  obtain ⟨e1, ht, hr1⟩ := h1
  obtain ⟨e2, hu, hr2⟩ := h2
  refine ⟨e1 ++ e2, ?_, ?_⟩
  · rw [hu, ht, List.append_assoc]
  · intro c hc
    rcases List.mem_append.mp hc with h | h
    · exact hr1 c h
    · exact hr2 c h

theorem extends_emit (s : ProgState G) (cs : List Call)
    (h : ∀ c ∈ cs, c.isRenderCall = true) : s.Extends (emit s cs) :=
  ⟨cs, rfl, h⟩

theorem extends_setShouldClose (s : ProgState G) (value : Bool) :
    s.Extends (glfwSetWindowShouldClose s value) :=
  ⟨[Call.glfwSetWindowShouldClose value], rfl, by simp [Call.isRenderCall]⟩

theorem extends_of_trace_eq {s t : ProgState G} (h : t.trace = s.trace) : s.Extends t :=
  ⟨[], by simp [h], by simp⟩

theorem extends_foldl {E : Type} (d : ProgState G → E → ProgState G)
    (h : ∀ (s : ProgState G) (e : E), s.Extends (d s e)) (evs : List E) (s : ProgState G) :
    s.Extends (evs.foldl d s) := by
  induction evs generalizing s with
  | nil => exact extends_refl s
  | cons e es ih => exact extends_trans (h s e) (ih (d s e))

theorem renderLoop_extends {F : Type} (body : F → ProgState G → ProgState G)
    (h : ∀ (f : F) (s : ProgState G), s.Extends (body f s)) (fs : List F) (s : ProgState G) :
    s.Extends (renderLoop body fs s).1 := by
  induction fs generalizing s with
  | nil => exact extends_refl s
  | cons f fs ih =>
    unfold renderLoop
    split_ifs with hc
    · exact extends_refl s
    · exact extends_trans (h f s) (ih (body f s))

theorem renderLoop_of_closed {F : Type} (body : F → ProgState G → ProgState G)
    (fs : List F) (s : ProgState G) (hc : s.shouldClose = true) :
    renderLoop body fs s = (s, true) := by
  cases fs with
  | nil => simp [renderLoop, hc]
  | cons f fs => simp [renderLoop, hc]

theorem renderLoop_of_open {F : Type} (body : F → ProgState G → ProgState G)
    (f : F) (fs : List F) (s : ProgState G) (ho : s.shouldClose = false) :
    renderLoop body (f :: fs) s = renderLoop body fs (body f s) := by
  simp [renderLoop, ho]

theorem renderLoop_left_closed {F : Type} (body : F → ProgState G → ProgState G)
    (fs : List F) (s : ProgState G) (hl : (renderLoop body fs s).2 = true) :
    (renderLoop body fs s).1.shouldClose = true := by
  induction fs generalizing s with
  | nil => simpa [renderLoop] using hl
  | cons f fs ih =>
    unfold renderLoop at hl ⊢
    split_ifs at hl ⊢ with hc
    · exact hc
    · exact ih (body f s) hl

theorem renderLoop_leaves {F : Type} (body : F → ProgState G → ProgState G)
    (closing : F → Bool)
    (hbody : ∀ (f : F) (s : ProgState G), closing f = true → (body f s).shouldClose = true)
    (fs : List F) (s : ProgState G) (h : fs.any closing = true) :
    (renderLoop body fs s).2 = true := by
  induction fs generalizing s with
  | nil => simp at h
  | cons f fs ih =>
    unfold renderLoop
    split_ifs with hc
    · rfl
    · rw [List.any_cons, Bool.or_eq_true] at h
      rcases h with h | h
      · rw [renderLoop_of_closed body fs _ (hbody f s h)]
      · exact ih _ h

theorem reportErrors_trace (s : ProgState G) (errors : List (Int × String)) :
    (reportErrors s errors).trace = s.trace := by
  induction errors generalizing s with
  | nil => rfl
  | cons e es ih =>
    simp only [reportErrors, List.foldl_cons] at ih ⊢
    rw [ih]
    rfl

theorem reportErrors_shouldClose (s : ProgState G) (errors : List (Int × String)) :
    (reportErrors s errors).shouldClose = s.shouldClose := by
  induction errors generalizing s with
  | nil => rfl
  | cons e es ih =>
    simp only [reportErrors, List.foldl_cons] at ih ⊢
    rw [ih]
    rfl

theorem liveAtDestroyWindow_append_render (xs ys : List Call) (live : List Handle)
    (h : ∀ c ∈ xs, c.isRenderCall = true) :
    liveAtDestroyWindow live (xs ++ ys) = liveAtDestroyWindow live ys := by
  induction xs generalizing live with
  | nil => rfl
  | cons c cs ih =>
    have hc : c.isRenderCall = true := h c (List.mem_cons_self c cs)
    have hcs : ∀ d ∈ cs, d.isRenderCall = true := fun d hd => h d (List.mem_cons_of_mem c hd)
    cases c <;>
      first
      | (simp [Call.isRenderCall] at hc; done)
      | (simp only [List.cons_append, liveAtDestroyWindow, liveStep]; exact ih _ hcs)

theorem createdObjects_append_render (xs ys : List Call)
    (h : ∀ c ∈ xs, c.isRenderCall = true) :
    createdObjects (xs ++ ys) = createdObjects ys := by
  induction xs with
  | nil => rfl
  | cons c cs ih =>
    have hc : c.isRenderCall = true := h c (List.mem_cons_self c cs)
    have hcs : ∀ d ∈ cs, d.isRenderCall = true := fun d hd => h d (List.mem_cons_of_mem c hd)
    cases c <;>
      first
      | (simp [Call.isRenderCall] at hc; done)
      | (simp only [List.cons_append, createdObjects]; exact ih hcs)

theorem textureUploads_append_render (xs ys : List Call) (a : Int)
    (h : ∀ c ∈ xs, c.isRenderCall = true) :
    textureUploads a (xs ++ ys) = textureUploads a ys := by
  induction xs with
  | nil => rfl
  | cons c cs ih =>
    have hc : c.isRenderCall = true := h c (List.mem_cons_self c cs)
    have hcs : ∀ d ∈ cs, d.isRenderCall = true := fun d hd => h d (List.mem_cons_of_mem c hd)
    cases c <;>
      first
      | (simp [Call.isRenderCall] at hc; done)
      | (simp only [List.cons_append, textureUploads]; exact ih hcs)

end Traces

/-! ## The run of `STB_Basics` -/

section STBRun
open STB_Basics

theorem stb_keyCallback_shouldClose (width height : Int) (s : ProgState Unit)
    (key scancode action mods : Int) :
    (keyCallback width height s key scancode action mods).shouldClose =
      (s.shouldClose || decide (key = GLFW_KEY_ESCAPE ∧ action = GLFW_PRESS)) := by
  unfold keyCallback
  split_ifs with h1 h2 h2 <;> simp [glfwSetWindowShouldClose, emit, h1]

theorem stb_keyCallback_extends (width height : Int) (s : ProgState Unit)
    (key scancode action mods : Int) :
    s.Extends (keyCallback width height s key scancode action mods) := by
  unfold keyCallback
  split_ifs with h1 h2 h2
  · exact extends_trans (extends_setShouldClose s true)
      (extends_emit _ _ (by simp [Call.isRenderCall]))
  · exact extends_setShouldClose s true
  · exact extends_emit _ _ (by simp [Call.isRenderCall])
  · exact extends_refl s

theorem stb_dispatch_extends (f : Frame) (s : ProgState Unit) (e : Event) :
    s.Extends (dispatch f s e) := by
  cases e with
  | key key scancode action mods => exact stb_keyCallback_extends _ _ s key scancode action mods
  | cursorPos x y => exact extends_refl s
  | mouseButton button action mods => exact extends_refl s
  | error code description => exact extends_of_trace_eq rfl
  | close => exact extends_of_trace_eq rfl

theorem stb_dispatch_closed (f : Frame) (s : ProgState Unit) (e : Event)
    (hc : s.shouldClose = true) : (dispatch f s e).shouldClose = true := by
  cases e with
  | key key scancode action mods =>
    simp [dispatch, stb_keyCallback_shouldClose, hc]
  | cursorPos x y => exact hc
  | mouseButton button action mods => exact hc
  | error code description => exact hc
  | close => rfl

theorem stb_events_closed (f : Frame) (evs : List Event) (s : ProgState Unit)
    (hc : s.shouldClose = true) : (evs.foldl (dispatch f) s).shouldClose = true := by
  induction evs generalizing s with
  | nil => exact hc
  | cons e es ih => exact ih _ (stb_dispatch_closed f s e hc)

theorem stb_events_close (f : Frame) (evs : List Event) (s : ProgState Unit)
    (h : evs.any Event.closes = true) : (evs.foldl (dispatch f) s).shouldClose = true := by
  induction evs generalizing s with
  | nil => simp at h
  | cons e es ih =>
    rw [List.any_cons, Bool.or_eq_true] at h
    rw [List.foldl_cons]
    rcases h with h | h
    · apply stb_events_closed
      cases e with
      | key key scancode action mods =>
        simp only [Event.closes] at h
        simp [dispatch, stb_keyCallback_shouldClose, h]
      | cursorPos x y => simp [Event.closes] at h
      | mouseButton button action mods => simp [Event.closes] at h
      | error code description => simp [Event.closes] at h
      | close => rfl
    · exact ih _ h

theorem stb_frame_closes (f : Frame) (s : ProgState Unit)
    (h : f.events.any Event.closes = true) : (frame f s).shouldClose = true :=
  stb_events_close f f.events _ h

theorem stb_frame_extends (f : Frame) (s : ProgState Unit) : s.Extends (frame f s) := by
  unfold frame glfwPollEvents
  refine extends_trans (extends_emit s _ ?_) (extends_trans (extends_emit _ _ ?_)
    (extends_foldl _ (stb_dispatch_extends f) _ _))
  · simp [frameCalls, Call.isRenderCall]
  · simp [Call.isRenderCall]

theorem stb_main_trace (env : Env) (hi : env.initOk = true) (hw : env.windowOk = true) :
    ∃ loopCalls : List Call, (∀ c ∈ loopCalls, c.isRenderCall = true) ∧
      (((main env).exitStatus = none ∧
          (main env).state.trace =
            [.glfwSetErrorCallback, .glfwInit, .api "glfwWindowHint", .api "glfwWindowHint",
              .api "glfwWindowHint", .glfwCreateWindow 1024 768] ++ setup env ++ loopCalls) ∨
       ((main env).exitStatus = some 0 ∧
          (main env).state.trace =
            [.glfwSetErrorCallback, .glfwInit, .api "glfwWindowHint", .api "glfwWindowHint",
              .api "glfwWindowHint", .glfwCreateWindow 1024 768] ++ setup env ++ loopCalls
              ++ teardown)) := by
  simp only [main, hi, hw, Bool.true_eq_false, if_false]
  generalize hs4 : emit (reportErrors (emit (reportErrors (emit (emit (ProgState.start ())
    [Call.glfwSetErrorCallback]) [Call.glfwInit]) env.initErrors)
    [.api "glfwWindowHint", .api "glfwWindowHint", .api "glfwWindowHint",
      .glfwCreateWindow 1024 768]) env.windowErrors) (setup env) = s4
  have ht4 : s4.trace = [.glfwSetErrorCallback, .glfwInit, .api "glfwWindowHint",
      .api "glfwWindowHint", .api "glfwWindowHint", .glfwCreateWindow 1024 768] ++ setup env := by
    rw [← hs4]
    simp [emit, reportErrors_trace, ProgState.start]
  obtain ⟨ex, hex, hr⟩ := renderLoop_extends frame stb_frame_extends env.frames s4
  refine ⟨ex, hr, ?_⟩
  generalize renderLoop frame env.frames s4 = r at hex
  obtain ⟨s5, b⟩ := r
  cases b with
  | false =>
    left
    refine ⟨rfl, ?_⟩
    simpa [ht4] using hex
  | true =>
    right
    refine ⟨rfl, ?_⟩
    simp only [emit]
    simp only at hex
    rw [hex, ht4]

end STBRun

/-! ## The run of `ImGui_Demo` -/

section ImGuiRun
open ImGui_Demo

theorem imgui_keyCallback_shouldClose (s : ProgState ImGuiIOState)
    (key scancode action mods : Int) :
    (keyCallback s key scancode action mods).shouldClose =
      (s.shouldClose || decide (key = GLFW_KEY_ESCAPE ∧ action = GLFW_PRESS)) := by
  unfold keyCallback
  split_ifs with h1 <;> simp [glfwSetWindowShouldClose, h1]

theorem imgui_keyCallback_extends (s : ProgState ImGuiIOState)
    (key scancode action mods : Int) :
    s.Extends (keyCallback s key scancode action mods) := by
  unfold keyCallback
  split_ifs with h1
  · exact extends_setShouldClose s true
  · exact extends_refl s

theorem imgui_dispatch_extends (s : ProgState ImGuiIOState) (e : Event) :
    s.Extends (dispatch s e) := by
  cases e with
  | key key scancode action mods => exact imgui_keyCallback_extends s key scancode action mods
  | cursorPos x y => exact extends_of_trace_eq rfl
  | mouseButton button action mods => exact extends_of_trace_eq rfl
  | error code description => exact extends_of_trace_eq rfl
  | close => exact extends_of_trace_eq rfl

theorem imgui_dispatch_closed (s : ProgState ImGuiIOState) (e : Event)
    (hc : s.shouldClose = true) : (dispatch s e).shouldClose = true := by
  cases e with
  | key key scancode action mods =>
    simp [dispatch, imgui_keyCallback_shouldClose, hc]
  | cursorPos x y => exact hc
  | mouseButton button action mods => exact hc
  | error code description => exact hc
  | close => rfl

theorem imgui_events_closed (evs : List Event) (s : ProgState ImGuiIOState)
    (hc : s.shouldClose = true) : (evs.foldl dispatch s).shouldClose = true := by
  induction evs generalizing s with
  | nil => exact hc
  | cons e es ih => exact ih _ (imgui_dispatch_closed s e hc)

theorem imgui_events_close (evs : List Event) (s : ProgState ImGuiIOState)
    (h : evs.any Event.closes = true) : (evs.foldl dispatch s).shouldClose = true := by
  induction evs generalizing s with
  | nil => simp at h
  | cons e es ih =>
    rw [List.any_cons, Bool.or_eq_true] at h
    rw [List.foldl_cons]
    rcases h with h | h
    · apply imgui_events_closed
      cases e with
      | key key scancode action mods =>
        simp only [Event.closes] at h
        simp [dispatch, imgui_keyCallback_shouldClose, h]
      | cursorPos x y => simp [Event.closes] at h
      | mouseButton button action mods => simp [Event.closes] at h
      | error code description => simp [Event.closes] at h
      | close => rfl
    · exact ih _ h

theorem imgui_frame_closes (f : Frame) (s : ProgState ImGuiIOState)
    (h : f.events.any Event.closes = true) : (frame f s).shouldClose = true :=
  imgui_events_close f.events _ h

theorem renderCmdList_render (height : Int) (cmd_list : ImDrawList) :
    ∀ c ∈ renderCmdList height cmd_list, c.isRenderCall = true := by
  intro c hc
  simp only [renderCmdList, List.mem_append, List.mem_cons, List.mem_flatMap, renderCmd,
    List.mem_singleton, List.not_mem_nil, or_false] at hc
  rcases hc with (h | h) | ⟨pcmd, _, h | h | h⟩ <;> subst h <;> rfl

theorem renderDrawData_render (height : Int) (draw_data : ImDrawData) :
    ∀ c ∈ renderDrawData height draw_data, c.isRenderCall = true := by
  intro c hc
  simp only [renderDrawData, List.mem_flatMap] at hc
  obtain ⟨cmd_list, _, h⟩ := hc
  exact renderCmdList_render height cmd_list c h

theorem imgui_frameCalls_render (f : Frame) : ∀ c ∈ frameCalls f, c.isRenderCall = true := by
  intro c hc
  simp only [frameCalls, List.mem_append] at hc
  rcases hc with (h | h) | h
  · revert c
    simp [Call.isRenderCall]
  · exact renderDrawData_render _ _ c h
  · revert c
    simp [Call.isRenderCall]

theorem imgui_frame_extends (f : Frame) (s : ProgState ImGuiIOState) :
    s.Extends (frame f s) := by
  unfold frame glfwPollEvents
  refine extends_trans (extends_of_trace_eq rfl) (extends_trans
    (extends_emit _ _ (imgui_frameCalls_render f)) (extends_trans (extends_emit _ _ ?_)
    (extends_foldl _ imgui_dispatch_extends _ _)))
  simp [Call.isRenderCall]

theorem imgui_main_trace (env : Env) (hi : env.initOk = true) (hw : env.windowOk = true) :
    ∃ loopCalls : List Call, (∀ c ∈ loopCalls, c.isRenderCall = true) ∧
      (((main env).exitStatus = none ∧
          (main env).state.trace =
            [.glfwSetErrorCallback, .glfwInit, .api "glfwWindowHint", .api "glfwWindowHint",
              .api "glfwWindowHint", .glfwCreateWindow 1024 768] ++ setup env ++ loopCalls) ∨
       ((main env).exitStatus = some EXIT_SUCCESS ∧
          (main env).state.trace =
            [.glfwSetErrorCallback, .glfwInit, .api "glfwWindowHint", .api "glfwWindowHint",
              .api "glfwWindowHint", .glfwCreateWindow 1024 768] ++ setup env ++ loopCalls
              ++ teardown)) := by
  simp only [main, hi, hw, Bool.true_eq_false, if_false]
  generalize hs4 : emit (reportErrors (emit (reportErrors (emit (emit
    (ProgState.start ImGuiIOState.fresh)
    [Call.glfwSetErrorCallback]) [Call.glfwInit]) env.initErrors)
    [.api "glfwWindowHint", .api "glfwWindowHint", .api "glfwWindowHint",
      .glfwCreateWindow 1024 768]) env.windowErrors) (setup env) = s4
  have ht4 : s4.trace = [.glfwSetErrorCallback, .glfwInit, .api "glfwWindowHint",
      .api "glfwWindowHint", .api "glfwWindowHint", .glfwCreateWindow 1024 768] ++ setup env := by
    rw [← hs4]
    simp [emit, reportErrors_trace, ProgState.start]
  obtain ⟨ex, hex, hr⟩ := renderLoop_extends frame imgui_frame_extends env.frames s4
  refine ⟨ex, hr, ?_⟩
  generalize renderLoop frame env.frames s4 = r at hex
  obtain ⟨s5, b⟩ := r
  cases b with
  | false =>
    left
    refine ⟨rfl, ?_⟩
    simpa [ht4] using hex
  | true =>
    right
    refine ⟨rfl, ?_⟩
    simp only [emit]
    simp only at hex
    rw [hex, ht4]

end ImGuiRun

/-! ## Graphics objects at exit -/

section Lifecycle

theorem createdObjects_append (xs ys : List Call) :
    createdObjects (xs ++ ys) = createdObjects xs ++ createdObjects ys := by
  induction xs with
  | nil => rfl
  | cons c cs ih => cases c <;> simp [createdObjects, ih]

theorem liveAtDestroyWindow_append (xs ys : List Call) (live : List Handle)
    (h : ∀ c ∈ xs, c ≠ Call.glfwDestroyWindow) :
    liveAtDestroyWindow live (xs ++ ys) = liveAtDestroyWindow (liveObjects live xs) ys := by
  induction xs generalizing live with
  | nil => rfl
  | cons c cs ih =>
    have hc : c ≠ Call.glfwDestroyWindow := h c (List.mem_cons_self c cs)
    have hcs : ∀ d ∈ cs, d ≠ Call.glfwDestroyWindow :=
      fun d hd => h d (List.mem_cons_of_mem c hd)
    cases c <;>
      first
      | (exact absurd rfl hc)
      | (simp only [List.cons_append, liveAtDestroyWindow, liveObjects, List.foldl_cons]
         exact ih _ hcs)

theorem liveObjects_render (xs : List Call) (live : List Handle)
    (h : ∀ c ∈ xs, c.isRenderCall = true) : liveObjects live xs = live := by
  induction xs generalizing live with
  | nil => rfl
  | cons c cs ih =>
    have hc : c.isRenderCall = true := h c (List.mem_cons_self c cs)
    have hcs : ∀ d ∈ cs, d.isRenderCall = true := fun d hd => h d (List.mem_cons_of_mem c hd)
    cases c <;>
      first
      | (simp [Call.isRenderCall] at hc; done)
      | (simp only [liveObjects, List.foldl_cons, liveStep]; exact ih _ hcs)

theorem createdObjects_render (xs : List Call)
    (h : ∀ c ∈ xs, c.isRenderCall = true) : createdObjects xs = [] := by
  have := createdObjects_append_render xs [] h
  simpa using this

/-- In `STB_Basics`, when the render loop is left, the six graphics objects the
program created have all been deleted when the window is destroyed. -/
theorem stb_objects_deleted_before_exit (env : STB_Basics.Env)
    (hi : env.initOk = true) (hw : env.windowOk = true)
    (hx : (STB_Basics.main env).exitStatus ≠ none) :
    createdObjects (STB_Basics.main env).state.trace =
      [.shaderVertex, .shaderFragment, .program, .VAO, .perFrameDataBuffer, .texture] ∧
    liveAtDestroyWindow [] (STB_Basics.main env).state.trace = some [] := by
  obtain ⟨loopCalls, hr, h | h⟩ := stb_main_trace env hi hw
  · exact absurd h.1 hx
  · rw [h.2]
    constructor
    · rw [createdObjects_append, createdObjects_append, createdObjects_render loopCalls hr]
      rfl
    · rw [List.append_assoc, liveAtDestroyWindow_append _ _ _ (by simp [STB_Basics.setup]),
        liveAtDestroyWindow_append_render _ _ _ hr]
      rfl

/-- C1 (the code departs from the claim): in `ImGui_Demo`, when the render loop is
left, the program exits with success, it has created eight graphics objects (the
vertex array, three buffers, two shaders, the program and the texture), its trace
has no delete call, and all eight objects are still live when the window is
destroyed. -/
theorem imgui_objects_live_at_exit (env : ImGui_Demo.Env)
    (hi : env.initOk = true) (hw : env.windowOk = true)
    (hx : (ImGui_Demo.main env).exitStatus ≠ none) :
    (ImGui_Demo.main env).exitStatus = some EXIT_SUCCESS ∧
    createdObjects (ImGui_Demo.main env).state.trace =
      [.VAO, .handleVBO, .handleElements, .handleVertex, .handleFragment, .program,
        .perFrameDataBuffer, .texture] ∧
    (∀ (kind : ObjKind) (h : Handle), Call.glDelete kind h ∉ (ImGui_Demo.main env).state.trace) ∧
    liveAtDestroyWindow [] (ImGui_Demo.main env).state.trace =
      some [.VAO, .handleVBO, .handleElements, .handleVertex, .handleFragment, .program,
        .perFrameDataBuffer, .texture] := by
  obtain ⟨loopCalls, hr, h | h⟩ := imgui_main_trace env hi hw
  · exact absurd h.1 hx
  · rw [h.2]
    refine ⟨h.1, ?_, ?_, ?_⟩
    · rw [createdObjects_append, createdObjects_append, createdObjects_render loopCalls hr]
      rfl
    · intro kind hd hmem
      simp only [List.mem_append] at hmem
      rcases hmem with (hm | hm) | hm
      · simp [ImGui_Demo.setup] at hm
      · have := hr _ hm
        simp [Call.isRenderCall] at this
      · simp [ImGui_Demo.teardown] at hm
    · rw [List.append_assoc, liveAtDestroyWindow_append _ _ _ (by simp [ImGui_Demo.setup]),
        liveAtDestroyWindow_append_render _ _ _ hr]
      rfl

/-- C1 at a concrete run of `ImGui_Demo`: the libraries start, one frame is
rendered on an empty draw list, Escape is pressed, and the program exits with
eight live graphics objects. -/
theorem imgui_objects_live_at_exit_witness :
    liveAtDestroyWindow []
      (ImGui_Demo.main
        { initOk := true, initErrors := [], windowOk := true, windowErrors := [],
          vertexShaderCompiles := true, fragmentShaderCompiles := true, programLinks := true,
          fontLoaded := true, width := 512, height := 64,
          frames := [{ width := 1024, height := 768,
                       draw_data := { CmdLists := [], DisplayPos := ⟨0, 0⟩,
                                      DisplaySize := ⟨1024, 768⟩ },
                       events := [.key GLFW_KEY_ESCAPE 9 GLFW_PRESS 0] }] }).state.trace =
      some [.VAO, .handleVBO, .handleElements, .handleVertex, .handleFragment, .program,
        .perFrameDataBuffer, .texture] :=
  (imgui_objects_live_at_exit _ rfl rfl (by decide)).2.2.2

end Lifecycle

/-! ## The window: open, then closed -/

section Window

theorem stb_keyCallback_sets (width height : Int) (s : ProgState Unit)
    (key scancode action mods : Int) :
    ∃ ex : List Call,
      (STB_Basics.keyCallback width height s key scancode action mods).trace = s.trace ++ ex ∧
      (Call.glfwSetWindowShouldClose true ∈ ex ↔
        key = GLFW_KEY_ESCAPE ∧ action = GLFW_PRESS) ∧
      Call.glfwSetWindowShouldClose false ∉ ex := by
  unfold STB_Basics.keyCallback
  split_ifs with h1 h2 h2
  · exact ⟨_, by simp only [emit, glfwSetWindowShouldClose, List.append_assoc]; rfl,
      by simp [h1], by simp⟩
  · exact ⟨[Call.glfwSetWindowShouldClose true], rfl, by simp [h1], by simp⟩
  · exact ⟨_, rfl, by simp [h1], by simp⟩
  · exact ⟨[], by simp, by simp [h1], by simp⟩

theorem imgui_keyCallback_sets (s : ProgState ImGui_Demo.ImGuiIOState)
    (key scancode action mods : Int) :
    ∃ ex : List Call,
      (ImGui_Demo.keyCallback s key scancode action mods).trace = s.trace ++ ex ∧
      (Call.glfwSetWindowShouldClose true ∈ ex ↔
        key = GLFW_KEY_ESCAPE ∧ action = GLFW_PRESS) ∧
      Call.glfwSetWindowShouldClose false ∉ ex := by
  unfold ImGui_Demo.keyCallback
  split_ifs with h1
  · exact ⟨[Call.glfwSetWindowShouldClose true], rfl, by simp [h1], by simp⟩
  · exact ⟨[], by simp, by simp [h1], by simp⟩

theorem stb_frame_closed (f : STB_Basics.Frame) (s : ProgState Unit)
    (hc : s.shouldClose = true) : (STB_Basics.frame f s).shouldClose = true :=
  stb_events_closed f f.events _ hc

theorem imgui_frame_closed (f : ImGui_Demo.Frame) (s : ProgState ImGui_Demo.ImGuiIOState)
    (hc : s.shouldClose = true) : (ImGui_Demo.frame f s).shouldClose = true :=
  imgui_events_closed f.events _ hc

/-- C2: in both recipes the should-close flag only goes from open to closed.  For
every key event the key callback calls `glfwSetWindowShouldClose(window, GLFW_TRUE)`
exactly when the key is Escape and the action is a press, never clears the flag,
and leaves the flag as it was otherwise (the F9 branch of `STB_Basics` included);
whatever events a poll delivers, a closed window stays closed; and the render loop
runs the next iteration exactly when the flag is not set, leaving with the flag
set. -/
theorem window_only_goes_from_open_to_closed
    (width height key scancode action mods : Int)
    (sS : ProgState Unit) (sI : ProgState ImGui_Demo.ImGuiIOState)
    (fS : STB_Basics.Frame) (fI : ImGui_Demo.Frame)
    (fsS : List STB_Basics.Frame) (fsI : List ImGui_Demo.Frame) :
    ((STB_Basics.keyCallback width height sS key scancode action mods).shouldClose =
        (sS.shouldClose || decide (key = GLFW_KEY_ESCAPE ∧ action = GLFW_PRESS)) ∧
      (∃ ex : List Call,
        (STB_Basics.keyCallback width height sS key scancode action mods).trace =
          sS.trace ++ ex ∧
        (Call.glfwSetWindowShouldClose true ∈ ex ↔
          key = GLFW_KEY_ESCAPE ∧ action = GLFW_PRESS) ∧
        Call.glfwSetWindowShouldClose false ∉ ex) ∧
      (STB_Basics.keyCallback width height sS GLFW_KEY_F9 scancode action mods).shouldClose =
        sS.shouldClose) ∧
    ((ImGui_Demo.keyCallback sI key scancode action mods).shouldClose =
        (sI.shouldClose || decide (key = GLFW_KEY_ESCAPE ∧ action = GLFW_PRESS)) ∧
      (∃ ex : List Call,
        (ImGui_Demo.keyCallback sI key scancode action mods).trace = sI.trace ++ ex ∧
        (Call.glfwSetWindowShouldClose true ∈ ex ↔
          key = GLFW_KEY_ESCAPE ∧ action = GLFW_PRESS) ∧
        Call.glfwSetWindowShouldClose false ∉ ex)) ∧
    ((sS.shouldClose = true → (STB_Basics.glfwPollEvents fS sS).shouldClose = true) ∧
      (sI.shouldClose = true → (ImGui_Demo.glfwPollEvents fI sI).shouldClose = true)) ∧
    ((sS.shouldClose = true → renderLoop STB_Basics.frame fsS sS = (sS, true)) ∧
      (sS.shouldClose = false →
        renderLoop STB_Basics.frame (fS :: fsS) sS =
          renderLoop STB_Basics.frame fsS (STB_Basics.frame fS sS)) ∧
      ((renderLoop STB_Basics.frame fsS sS).2 = true →
        (renderLoop STB_Basics.frame fsS sS).1.shouldClose = true)) ∧
    ((sI.shouldClose = true → renderLoop ImGui_Demo.frame fsI sI = (sI, true)) ∧
      (sI.shouldClose = false →
        renderLoop ImGui_Demo.frame (fI :: fsI) sI =
          renderLoop ImGui_Demo.frame fsI (ImGui_Demo.frame fI sI)) ∧
      ((renderLoop ImGui_Demo.frame fsI sI).2 = true →
        (renderLoop ImGui_Demo.frame fsI sI).1.shouldClose = true)) := by
  refine ⟨⟨stb_keyCallback_shouldClose _ _ _ _ _ _ _, stb_keyCallback_sets _ _ _ _ _ _ _, ?_⟩,
    ⟨imgui_keyCallback_shouldClose _ _ _ _ _, imgui_keyCallback_sets _ _ _ _ _⟩,
    ⟨fun hc => stb_events_closed fS fS.events _ hc, fun hc => imgui_events_closed fI.events _ hc⟩,
    ⟨renderLoop_of_closed _ _ _, renderLoop_of_open _ _ _ _, renderLoop_left_closed _ _ _⟩,
    ⟨renderLoop_of_closed _ _ _, renderLoop_of_open _ _ _ _, renderLoop_left_closed _ _ _⟩⟩
  rw [stb_keyCallback_shouldClose]
  simp [GLFW_KEY_F9, GLFW_KEY_ESCAPE]

/-- C2 at concrete events: in `STB_Basics` a press of Escape closes an open window,
and a closed window is still closed after a poll that delivers a release of Escape
and a press of F9. -/
theorem window_only_goes_from_open_to_closed_witness :
    (STB_Basics.keyCallback 1024 768 (ProgState.start ()) GLFW_KEY_ESCAPE 9 GLFW_PRESS
      0).shouldClose = true ∧
    (STB_Basics.glfwPollEvents
      { width := 1024, height := 768,
        events := [.key GLFW_KEY_ESCAPE 9 GLFW_RELEASE 0, .key GLFW_KEY_F9 75 GLFW_PRESS 0] }
      (glfwSetWindowShouldClose (ProgState.start ()) true)).shouldClose = true :=
  ⟨((window_only_goes_from_open_to_closed 1024 768 GLFW_KEY_ESCAPE 9 GLFW_PRESS 0
      (ProgState.start ()) (ProgState.start ImGui_Demo.ImGuiIOState.fresh)
      { width := 0, height := 0, events := [] }
      { width := 0, height := 0,
        draw_data := { CmdLists := [], DisplayPos := ⟨0, 0⟩, DisplaySize := ⟨0, 0⟩ },
        events := [] } [] []).1.1).trans (by decide),
   (window_only_goes_from_open_to_closed 1024 768 GLFW_KEY_ESCAPE 9 GLFW_PRESS 0
      (glfwSetWindowShouldClose (ProgState.start ()) true)
      (ProgState.start ImGui_Demo.ImGuiIOState.fresh)
      { width := 1024, height := 768,
        events := [.key GLFW_KEY_ESCAPE 9 GLFW_RELEASE 0, .key GLFW_KEY_F9 75 GLFW_PRESS 0] }
      { width := 0, height := 0,
        draw_data := { CmdLists := [], DisplayPos := ⟨0, 0⟩, DisplaySize := ⟨0, 0⟩ },
        events := [] } [] []).2.2.1.1 rfl⟩

end Window

/-! ## Failures -/

section Failures

theorem stb_exit_failure_iff (env : STB_Basics.Env) :
    (STB_Basics.main env).exitStatus = some EXIT_FAILURE ↔
      env.initOk = false ∨ env.windowOk = false := by
  constructor
  · intro h
    by_contra hn
    simp only [not_or, Bool.not_eq_false] at hn
    obtain ⟨_, _, h1 | h1⟩ := stb_main_trace env hn.1 hn.2
    · rw [h1.1] at h
      exact absurd h (by simp)
    · rw [h1.1] at h
      exact absurd h (by simp [EXIT_FAILURE])
  · rintro (h | h)
    · simp [STB_Basics.main, h]
    · cases hi : env.initOk <;> simp [STB_Basics.main, h, hi]

theorem imgui_exit_failure_iff (env : ImGui_Demo.Env) :
    (ImGui_Demo.main env).exitStatus = some EXIT_FAILURE ↔
      env.initOk = false ∨ env.windowOk = false := by
  constructor
  · intro h
    by_contra hn
    simp only [not_or, Bool.not_eq_false] at hn
    obtain ⟨_, _, h1 | h1⟩ := imgui_main_trace env hn.1 hn.2
    · rw [h1.1] at h
      exact absurd h (by simp)
    · rw [h1.1] at h
      exact absurd h (by simp [EXIT_FAILURE, EXIT_SUCCESS])
  · rintro (h | h)
    · simp [ImGui_Demo.main, h]
    · cases hi : env.initOk <;> simp [ImGui_Demo.main, h, hi]

theorem stb_exits_with_success (env : STB_Basics.Env)
    (hi : env.initOk = true) (hw : env.windowOk = true)
    (h : env.frames.any (fun f => f.events.any Event.closes) = true) :
    (STB_Basics.main env).exitStatus = some EXIT_SUCCESS := by
  simp only [STB_Basics.main, hi, hw, Bool.true_eq_false, if_false]
  have hl := renderLoop_leaves STB_Basics.frame (fun f => f.events.any Event.closes)
    stb_frame_closes env.frames
  generalize emit (reportErrors (emit (reportErrors (emit (emit (ProgState.start ())
    [Call.glfwSetErrorCallback]) [Call.glfwInit]) env.initErrors)
    [.api "glfwWindowHint", .api "glfwWindowHint", .api "glfwWindowHint",
      .glfwCreateWindow 1024 768]) env.windowErrors) (STB_Basics.setup env) = s4
  have h2 := hl s4 h
  generalize renderLoop STB_Basics.frame env.frames s4 = r at h2
  obtain ⟨s5, b⟩ := r
  simp only at h2
  subst h2
  rfl

theorem imgui_exits_with_success (env : ImGui_Demo.Env)
    (hi : env.initOk = true) (hw : env.windowOk = true)
    (h : env.frames.any (fun f => f.events.any Event.closes) = true) :
    (ImGui_Demo.main env).exitStatus = some EXIT_SUCCESS := by
  simp only [ImGui_Demo.main, hi, hw, Bool.true_eq_false, if_false]
  have hl := renderLoop_leaves ImGui_Demo.frame (fun f => f.events.any Event.closes)
    imgui_frame_closes env.frames
  generalize emit (reportErrors (emit (reportErrors (emit (emit
    (ProgState.start ImGui_Demo.ImGuiIOState.fresh)
    [Call.glfwSetErrorCallback]) [Call.glfwInit]) env.initErrors)
    [.api "glfwWindowHint", .api "glfwWindowHint", .api "glfwWindowHint",
      .glfwCreateWindow 1024 768]) env.windowErrors) (ImGui_Demo.setup env) = s4
  have h2 := hl s4 h
  generalize renderLoop ImGui_Demo.frame env.frames s4 = r at h2
  obtain ⟨s5, b⟩ := r
  simp only at h2
  subst h2
  rfl

/-- C3: in both recipes the error callback appends `Error: <description>` and a
newline to standard error and changes nothing else; `main` exits with failure
status exactly when library initialisation fails or window creation fails; when
initialisation fails the only calls are the installation of the error callback,
`glfwInit` and `exit`, when window creation fails the library is terminated before
`exit`, and in both cases no graphics object is created and no frame is rendered;
when both succeed and some poll delivers a press of Escape or a close request,
`main` exits with success; whether the shaders compile, the program links, the
font or the image loads has no effect on the run. -/
theorem failure_only_on_init_or_window {G : Type} (s : ProgState G) (code : Int)
    (description : String) (envS : STB_Basics.Env) (envI : ImGui_Demo.Env)
    (b1 b2 b3 b4 : Bool) :
    ((errorCallback s code description).stderr =
        s.stderr ++ ("Error: " ++ description ++ "\n") ∧
      (errorCallback s code description).trace = s.trace ∧
      (errorCallback s code description).shouldClose = s.shouldClose ∧
      (errorCallback s code description).gui = s.gui) ∧
    (((STB_Basics.main envS).exitStatus = some EXIT_FAILURE ↔
        envS.initOk = false ∨ envS.windowOk = false) ∧
      (envS.initOk = false →
        (STB_Basics.main envS).state.trace =
          [.glfwSetErrorCallback, .glfwInit, .exit EXIT_FAILURE]) ∧
      (envS.initOk = true → envS.windowOk = false →
        (STB_Basics.main envS).state.trace =
          [.glfwSetErrorCallback, .glfwInit, .api "glfwWindowHint", .api "glfwWindowHint",
            .api "glfwWindowHint", .glfwCreateWindow 1024 768, .glfwTerminate,
            .exit EXIT_FAILURE]) ∧
      (envS.initOk = true → envS.windowOk = true →
        envS.frames.any (fun f => f.events.any Event.closes) = true →
        (STB_Basics.main envS).exitStatus = some EXIT_SUCCESS) ∧
      STB_Basics.main { envS with vertexShaderCompiles := b1, fragmentShaderCompiles := b2,
                                  programLinks := b3, imageLoaded := b4 } =
        STB_Basics.main envS) ∧
    (((ImGui_Demo.main envI).exitStatus = some EXIT_FAILURE ↔
        envI.initOk = false ∨ envI.windowOk = false) ∧
      (envI.initOk = false →
        (ImGui_Demo.main envI).state.trace =
          [.glfwSetErrorCallback, .glfwInit, .exit EXIT_FAILURE]) ∧
      (envI.initOk = true → envI.windowOk = false →
        (ImGui_Demo.main envI).state.trace =
          [.glfwSetErrorCallback, .glfwInit, .api "glfwWindowHint", .api "glfwWindowHint",
            .api "glfwWindowHint", .glfwCreateWindow 1024 768, .glfwTerminate,
            .exit EXIT_FAILURE]) ∧
      (envI.initOk = true → envI.windowOk = true →
        envI.frames.any (fun f => f.events.any Event.closes) = true →
        (ImGui_Demo.main envI).exitStatus = some EXIT_SUCCESS) ∧
      ImGui_Demo.main { envI with vertexShaderCompiles := b1, fragmentShaderCompiles := b2,
                                  programLinks := b3, fontLoaded := b4 } =
        ImGui_Demo.main envI) := by
  refine ⟨⟨rfl, rfl, rfl, rfl⟩,
    ⟨stb_exit_failure_iff envS, ?_, ?_, stb_exits_with_success envS, rfl⟩,
    ⟨imgui_exit_failure_iff envI, ?_, ?_, imgui_exits_with_success envI, rfl⟩⟩
  · intro h
    simp [STB_Basics.main, h, emit, reportErrors_trace, ProgState.start]
  · intro hi hw
    simp [STB_Basics.main, hi, hw, emit, reportErrors_trace, ProgState.start]
  · intro h
    simp [ImGui_Demo.main, h, emit, reportErrors_trace, ProgState.start]
  · intro hi hw
    simp [ImGui_Demo.main, hi, hw, emit, reportErrors_trace, ProgState.start]

/-- C3 at a concrete run: when `glfwCreateWindow` fails in `STB_Basics` and the
library reports it, the message is on standard error, the library is terminated
and the program exits with failure status. -/
theorem failure_only_on_init_or_window_witness :
    (STB_Basics.main
      { initOk := true, initErrors := [], windowOk := false,
        windowErrors := [(65543, "no context")],
        vertexShaderCompiles := true, fragmentShaderCompiles := true, programLinks := true,
        imageLoaded := true, w := 4, h := 4, frames := [] }).exitStatus = some EXIT_FAILURE ∧
    (STB_Basics.main
      { initOk := true, initErrors := [], windowOk := false,
        windowErrors := [(65543, "no context")],
        vertexShaderCompiles := true, fragmentShaderCompiles := true, programLinks := true,
        imageLoaded := true, w := 4, h := 4, frames := [] }).state.stderr =
      "Error: no context\n" :=
  ⟨(failure_only_on_init_or_window (ProgState.start ()) 0 ""
      { initOk := true, initErrors := [], windowOk := false,
        windowErrors := [(65543, "no context")],
        vertexShaderCompiles := true, fragmentShaderCompiles := true, programLinks := true,
        imageLoaded := true, w := 4, h := 4, frames := [] }
      { initOk := false, initErrors := [], windowOk := false, windowErrors := [],
        vertexShaderCompiles := true, fragmentShaderCompiles := true, programLinks := true,
        fontLoaded := true, width := 0, height := 0, frames := [] }
      true true true true).2.1.1.mpr (Or.inr rfl),
   by decide⟩

end Failures

/-! ## Texture uploads -/

section Textures

theorem unpackRowStride_one (components width : Int) :
    unpackRowStride 1 components width = width * components := by
  simp [unpackRowStride, mul_comm]

theorem unpackBytesRead_one (components width height : Int)
    (hw : 0 ≤ width) (hh : 0 ≤ height) :
    unpackBytesRead 1 components width height = width * height * components := by
  unfold unpackBytesRead
  rw [unpackRowStride_one]
  split_ifs with h
  · rcases h with h | h
    · have : width = 0 := le_antisymm h hw
      simp [this]
    · have : height = 0 := le_antisymm h hh
      simp [this]
  · ring

theorem stb_textureUploads (env : STB_Basics.Env) (rest : List Call) :
    textureUploads defaultUnpackAlignment
      ([.glfwSetErrorCallback, .glfwInit, .api "glfwWindowHint", .api "glfwWindowHint",
        .api "glfwWindowHint", .glfwCreateWindow 1024 768] ++ STB_Basics.setup env ++ rest) =
      { tex := .texture
        rowStride := unpackRowStride 1 3 env.w
        bytesRead := unpackBytesRead 1 3 env.w env.h } :: textureUploads 1 rest := by
  simp [STB_Basics.setup, textureUploads, PixelFormat.components]

theorem imgui_textureUploads (env : ImGui_Demo.Env) (rest : List Call) :
    textureUploads defaultUnpackAlignment
      ([.glfwSetErrorCallback, .glfwInit, .api "glfwWindowHint", .api "glfwWindowHint",
        .api "glfwWindowHint", .glfwCreateWindow 1024 768] ++ ImGui_Demo.setup env ++ rest) =
      { tex := .texture
        rowStride := unpackRowStride 1 4 env.width
        bytesRead := unpackBytesRead 1 4 env.width env.height } :: textureUploads 1 rest := by
  simp [ImGui_Demo.setup, textureUploads, PixelFormat.components]

theorem textureUploads_render (xs : List Call) (a : Int)
    (h : ∀ c ∈ xs, c.isRenderCall = true) : textureUploads a xs = [] := by
  have := textureUploads_append_render xs [] a h
  simpa [textureUploads] using this

/-- C7: with the unpack alignment at 1 the row stride of an upload of `w` pixels
of `c` one-byte components is `w * c` bytes and, for `w ≥ 0` and `h ≥ 0`, the
upload reads `w * h * c` bytes.  In a run of `STB_Basics` in which the libraries
start, the only texture upload is the one of the `w` x `h` image as `GL_RGB`, made
with alignment 1: its row stride is `w * 3` and it reads `w * h * 3` bytes.  In a
run of `ImGui_Demo` it is the one of the font atlas as `GL_RGBA`: row stride
`width * 4`, `width * height * 4` bytes read. -/
theorem texture_uploads_read_unpadded_buffer (envS : STB_Basics.Env) (envI : ImGui_Demo.Env)
    (hiS : envS.initOk = true) (hwS : envS.windowOk = true)
    (hiI : envI.initOk = true) (hwI : envI.windowOk = true)
    (hw : 0 ≤ envS.w) (hh : 0 ≤ envS.h) (hwidth : 0 ≤ envI.width) (hheight : 0 ≤ envI.height) :
    (∀ c w : Int, unpackRowStride 1 c w = w * c) ∧
    (∀ c w h : Int, 0 ≤ w → 0 ≤ h → unpackBytesRead 1 c w h = w * h * c) ∧
    textureUploads defaultUnpackAlignment (STB_Basics.main envS).state.trace =
      [{ tex := .texture, rowStride := envS.w * 3, bytesRead := envS.w * envS.h * 3 }] ∧
    textureUploads defaultUnpackAlignment (ImGui_Demo.main envI).state.trace =
      [{ tex := .texture, rowStride := envI.width * 4,
         bytesRead := envI.width * envI.height * 4 }] := by
  refine ⟨unpackRowStride_one, unpackBytesRead_one, ?_, ?_⟩
  · obtain ⟨loopCalls, hr, h | h⟩ := stb_main_trace envS hiS hwS
    · rw [h.2, stb_textureUploads, textureUploads_render _ _ hr, unpackRowStride_one,
        unpackBytesRead_one _ _ _ hw hh]
    · rw [h.2, List.append_assoc, stb_textureUploads,
        textureUploads_append_render _ _ _ hr, unpackRowStride_one,
        unpackBytesRead_one _ _ _ hw hh]
      rfl
  · obtain ⟨loopCalls, hr, h | h⟩ := imgui_main_trace envI hiI hwI
    · rw [h.2, imgui_textureUploads, textureUploads_render _ _ hr, unpackRowStride_one,
        unpackBytesRead_one _ _ _ hwidth hheight]
    · rw [h.2, List.append_assoc, imgui_textureUploads,
        textureUploads_append_render _ _ _ hr, unpackRowStride_one,
        unpackBytesRead_one _ _ _ hwidth hheight]
      rfl

/-- C7 at concrete runs: a 5 x 2 image has rows of 15 bytes and 30 bytes are read
(at the initial alignment 4 the rows would be 16 bytes apart); a 512 x 64 atlas has
rows of 2048 bytes and 131072 bytes are read. -/
theorem texture_uploads_read_unpadded_buffer_witness :
    textureUploads defaultUnpackAlignment
      (STB_Basics.main
        { initOk := true, initErrors := [], windowOk := true, windowErrors := [],
          vertexShaderCompiles := true, fragmentShaderCompiles := true, programLinks := true,
          imageLoaded := true, w := 5, h := 2, frames := [] }).state.trace =
      [{ tex := .texture, rowStride := 15, bytesRead := 30 }] ∧
    unpackRowStride defaultUnpackAlignment 3 5 = 16 ∧
    textureUploads defaultUnpackAlignment
      (ImGui_Demo.main
        { initOk := true, initErrors := [], windowOk := true, windowErrors := [],
          vertexShaderCompiles := true, fragmentShaderCompiles := true, programLinks := true,
          fontLoaded := true, width := 512, height := 64, frames := [] }).state.trace =
      [{ tex := .texture, rowStride := 2048, bytesRead := 131072 }] :=
  have h := texture_uploads_read_unpadded_buffer
    { initOk := true, initErrors := [], windowOk := true, windowErrors := [],
      vertexShaderCompiles := true, fragmentShaderCompiles := true, programLinks := true,
      imageLoaded := true, w := 5, h := 2, frames := [] }
    { initOk := true, initErrors := [], windowOk := true, windowErrors := [],
      vertexShaderCompiles := true, fragmentShaderCompiles := true, programLinks := true,
      fontLoaded := true, width := 512, height := 64, frames := [] }
    rfl rfl rfl rfl (by decide) (by decide) (by decide) (by decide)
  ⟨h.2.2.1, by decide, h.2.2.2⟩

end Textures

/-! ## The draw calls of a frame of `ImGui_Demo` -/

section DrawCalls
open ImGui_Demo

theorem roundHalfEven_intCast (n : Int) : roundHalfEven (n : ℚ) = n := by
  simp [roundHalfEven]

theorem log_lt_of_lt_zpow (q : ℚ) (hq : 0 < q) (x : Int) (h : q < 2 ^ x) :
    Int.log 2 q < x :=
  (Int.lt_zpow_iff_log_lt (R := ℚ) (b := 2) (by norm_num) (x := x) hq).mp (by simpa using h)

theorem le_log_of_zpow_le (q : ℚ) (hq : 0 < q) (x : Int) (h : 2 ^ x ≤ q) :
    x ≤ Int.log 2 q :=
  (Int.zpow_le_iff_le_log (R := ℚ) (b := 2) (by norm_num) (x := x) hq).mp (by simpa using h)

/-- A number `m * 2 ^ k` with a significand of at most 24 bits and an exponent in
the range of `float` is a `float`: rounding leaves it as it is. -/
theorem roundF32_scaled (m k : Int) (hm : |m| < 2 ^ 24) (hk : -149 ≤ k) (hk2 : k ≤ 104) :
    roundF32 ((m : ℚ) * 2 ^ k) = some ((m : ℚ) * 2 ^ k) := by
  have h2k : (0 : ℚ) < 2 ^ k := zpow_pos (by norm_num) k
  by_cases hm0 : m = 0
  · subst hm0
    norm_num [roundF32, roundHalfEven, FLT_MAX]
  · have hmq : (0 : ℚ) < |(m : ℚ)| := abs_pos.mpr (by exact_mod_cast hm0)
    have habs : |(m : ℚ) * 2 ^ k| = |(m : ℚ)| * 2 ^ k := by
      rw [abs_mul, abs_of_pos h2k]
    have hpos : (0 : ℚ) < |(m : ℚ) * 2 ^ k| := by
      rw [habs]
      exact mul_pos hmq h2k
    have hmlt : |(m : ℚ)| < 2 ^ (24 : ℤ) := by
      have hc : ((|m| : Int) : ℚ) < ((2 ^ 24 : Int) : ℚ) := by exact_mod_cast hm
      rw [Int.cast_abs] at hc
      exact_mod_cast hc
    have hlt : |(m : ℚ) * 2 ^ k| < 2 ^ (k + 24) := by
      rw [habs, zpow_add₀ (by norm_num : (2 : ℚ) ≠ 0), mul_comm ((2 : ℚ) ^ k)]
      exact mul_lt_mul_of_pos_right hmlt h2k
    have hlog := log_lt_of_lt_zpow _ hpos _ hlt
    set e : Int := max (Int.log 2 |(m : ℚ) * 2 ^ k| - 23) (-149) with he
    have hek : e ≤ k := max_le (by omega) hk
    obtain ⟨n, hn⟩ := Int.eq_ofNat_of_zero_le (sub_nonneg.mpr hek)
    have hdiv : |(m : ℚ) * 2 ^ k| / 2 ^ e = ((|m| * 2 ^ n : Int) : ℚ) := by
      rw [habs, mul_div_assoc, ← zpow_sub₀ (by norm_num : (2 : ℚ) ≠ 0), hn]
      push_cast
      rw [zpow_natCast]
    have hr : ((roundHalfEven (|(m : ℚ) * 2 ^ k| / 2 ^ e) : Int) : ℚ) * 2 ^ e
        = |(m : ℚ) * 2 ^ k| := by
      rw [hdiv, roundHalfEven_intCast, ← hdiv]
      field_simp
    have hmax : |(m : ℚ) * 2 ^ k| ≤ FLT_MAX := by
      rw [habs, FLT_MAX]
      have h1 : |(m : ℚ)| ≤ 2 ^ 24 - 1 := by
        have hi : |m| ≤ 2 ^ 24 - 1 := by omega
        have hc : ((|m| : Int) : ℚ) ≤ ((2 ^ 24 - 1 : Int) : ℚ) := by exact_mod_cast hi
        rw [Int.cast_abs] at hc
        exact_mod_cast hc
      have h2 : (2 : ℚ) ^ k ≤ 2 ^ (104 : ℕ) := by
        rw [← zpow_natCast]
        exact zpow_le_zpow_right₀ (by norm_num) (by simpa using hk2)
      exact mul_le_mul h1 h2 h2k.le (by norm_num)
    simp only [roundF32]
    rw [← he, hr, if_pos hmax]
    congr 1
    split_ifs with hneg
    · rw [abs_of_neg hneg, neg_neg]
    · rw [abs_of_nonneg (not_lt.mp hneg)]

/-- Every integer of magnitude at most `2 ^ 24` is a `float`. -/
theorem roundF32_intCast (n : Int) (h : |n| ≤ 2 ^ 24) : roundF32 (n : ℚ) = some (n : ℚ) := by
  by_cases hlt : |n| < 2 ^ 24
  · have := roundF32_scaled n 0 hlt (by norm_num) (by norm_num)
    simpa using this
  · have habs : |n| = 2 ^ 24 := le_antisymm h (not_lt.mp hlt)
    rcases abs_eq (by norm_num : (0 : Int) ≤ 2 ^ 24) |>.mp habs with h1 | h1
    · have := roundF32_scaled (2 ^ 23) 1 (by norm_num) (by norm_num) (by norm_num)
      rw [h1]
      norm_num at this ⊢
      exact this
    · have := roundF32_scaled (-2 ^ 23) 1 (by norm_num) (by norm_num) (by norm_num)
      rw [h1]
      norm_num at this ⊢
      exact this

/-- The integer 33554431 = `2 ^ 25 - 1` needs 25 bits: it lies halfway between the
`float` values 33554430 and 33554432 and rounds to the one with the even
significand. -/
theorem roundF32_33554431 : roundF32 33554431 = some 33554432 := by
  have hlog : Int.log 2 |(33554431 : ℚ)| = 24 := by
    apply le_antisymm
    · have := log_lt_of_lt_zpow |(33554431 : ℚ)| (by norm_num) 25 (by norm_num)
      omega
    · exact le_log_of_zpow_le _ (by norm_num) 24 (by norm_num)
  simp only [roundF32, hlog]
  norm_num [roundHalfEven, FLT_MAX]

theorem toInt_intCast (n : Int) (h1 : INT_MIN ≤ n) (h2 : n ≤ INT_MAX) :
    toInt (n : ℚ) = some n := by
  have ht : (if (0 : ℚ) ≤ (n : ℚ) then ⌊(n : ℚ)⌋ else ⌈(n : ℚ)⌉) = n := by
    split_ifs <;> simp
  simp only [toInt, ht]
  rw [if_pos ⟨h1, h2⟩]

theorem fsub_intCast (a b : Int) (h : |a - b| ≤ 2 ^ 24) :
    fsub (a : ℚ) (b : ℚ) = some ((a - b : Int) : ℚ) := by
  unfold fsub
  rw [← Int.cast_sub]
  exact roundF32_intCast (a - b) h

theorem scissorCall_components (height x y z w : Int) :
    scissorCall height ⟨x, y, z, w⟩ =
      .glScissor (toInt (x : ℚ))
        ((intToFloat height).bind fun hf => (fsub hf (w : ℚ)).bind toInt)
        ((fsub (z : ℚ) (x : ℚ)).bind toInt)
        ((fsub (w : ℚ) (y : ℚ)).bind toInt) :=
  rfl

theorem int_range_of_abs_le (n : Int) (h : |n| ≤ 2 ^ 24) : INT_MIN ≤ n ∧ n ≤ INT_MAX := by
  have h1 := abs_le.mp h
  simp only [INT_MIN, INT_MAX]
  constructor <;> omega

theorem scissorCall_intCast (height x y z w : Int)
    (hx1 : INT_MIN ≤ x) (hx2 : x ≤ INT_MAX) (hh : |height| ≤ 2 ^ 24)
    (hb : |height - w| ≤ 2 ^ 24) (hwd : |z - x| ≤ 2 ^ 24) (hht : |w - y| ≤ 2 ^ 24) :
    scissorCall height ⟨x, y, z, w⟩ =
      .glScissor (some x) (some (height - w)) (some (z - x)) (some (w - y)) := by
  rw [scissorCall_components, toInt_intCast x hx1 hx2, intToFloat,
    roundF32_intCast height hh, Option.some_bind, fsub_intCast height w hb,
    fsub_intCast z x hwd, fsub_intCast w y hht, Option.some_bind, Option.some_bind,
    Option.some_bind,
    toInt_intCast _ (int_range_of_abs_le _ hb).1 (int_range_of_abs_le _ hb).2,
    toInt_intCast _ (int_range_of_abs_le _ hwd).1 (int_range_of_abs_le _ hwd).2,
    toInt_intCast _ (int_range_of_abs_le _ hht).1 (int_range_of_abs_le _ hht).2]

theorem filter_renderCmdList_draw (height : Int) (cmd_list : ImDrawList) :
    (renderCmdList height cmd_list).filter Call.isDraw = cmd_list.CmdBuffer.map drawCall := by
  simp only [renderCmdList, List.filter_append, List.filter_flatMap]
  have h : ∀ cmds : List ImDrawCmd,
      (cmds.flatMap fun a => List.filter Call.isDraw (renderCmd height a)) =
        cmds.map drawCall := by
    intro cmds
    induction cmds with
    | nil => rfl
    | cons c cs ih =>
      rw [List.flatMap_cons, ih]
      rfl
  rw [h]
  rfl

theorem filter_renderCmdList_scissor_draw (height : Int) (cmd_list : ImDrawList) :
    (renderCmdList height cmd_list).filter (fun c => c.isScissor || c.isDraw) =
      cmd_list.CmdBuffer.flatMap (fun c => [scissorCall height c.ClipRect, drawCall c]) := by
  simp only [renderCmdList, List.filter_append, List.filter_flatMap]
  have h : ∀ cmds : List ImDrawCmd,
      (cmds.flatMap fun a =>
        List.filter (fun c => c.isScissor || c.isDraw) (renderCmd height a)) =
        cmds.flatMap (fun c => [scissorCall height c.ClipRect, drawCall c]) := by
    intro cmds
    induction cmds with
    | nil => rfl
    | cons c cs ih =>
      rw [List.flatMap_cons, List.flatMap_cons, ih]
      rfl
  rw [h]
  rfl

theorem filter_renderCmdList_vertex (height : Int) (cmd_list : ImDrawList) :
    (renderCmdList height cmd_list).filter (Call.isUpdateOf .handleVBO) =
      [vertexUpload cmd_list] := by
  simp only [renderCmdList, List.filter_append, List.filter_flatMap]
  have h : ∀ cmds : List ImDrawCmd,
      (cmds.flatMap fun a =>
        List.filter (Call.isUpdateOf .handleVBO) (renderCmd height a)) = [] := by
    intro cmds
    induction cmds with
    | nil => rfl
    | cons c cs ih =>
      rw [List.flatMap_cons, ih]
      rfl
  rw [h]
  rfl

theorem filter_renderCmdList_index (height : Int) (cmd_list : ImDrawList) :
    (renderCmdList height cmd_list).filter (Call.isUpdateOf .handleElements) =
      [indexUpload cmd_list] := by
  simp only [renderCmdList, List.filter_append, List.filter_flatMap]
  have h : ∀ cmds : List ImDrawCmd,
      (cmds.flatMap fun a =>
        List.filter (Call.isUpdateOf .handleElements) (renderCmd height a)) = [] := by
    intro cmds
    induction cmds with
    | nil => rfl
    | cons c cs ih =>
      rw [List.flatMap_cons, ih]
      rfl
  rw [h]
  rfl

theorem filter_frameCalls (p : Call → Bool) (f : Frame) :
    (frameCalls f).filter p =
      [Call.api "glViewport", .api "glClear",
        .api "ImGui::NewFrame", .api "ImGui::ShowDemoWindow", .api "ImGui::Render",
        .glNamedBufferSubData .perFrameDataBuffer 0 sizeof_mat4
          (.matrix (orthoProj f.draw_data))].filter p
      ++ f.draw_data.CmdLists.flatMap (fun l => (renderCmdList f.height l).filter p)
      ++ [Call.glScissor (some 0) (some 0) (some f.width) (some f.height),
          .api "glfwSwapBuffers"].filter p := by
  simp only [frameCalls, renderDrawData, List.filter_append, List.filter_flatMap]

theorem flatMap_singleton_map {α β : Type} (g : α → β) (l : List α) :
    (l.flatMap fun a => [g a]) = l.map g := by
  induction l with
  | nil => rfl
  | cons a as ih => simp [List.flatMap_cons, ih]

theorem length_flatMap_map {α β : Type} (g : α → List β) (l : List α) :
    (l.flatMap g).length = (l.map fun a => (g a).length).sum := by
  induction l with
  | nil => rfl
  | cons a as ih => simp [List.flatMap_cons, ih]

/-- C5 (amended): in a frame of `ImGui_Demo` the render loop handles the command
lists in order: for each list the vertex upload and the index upload, both at
offset 0, then for each draw command in order a scissor call, a texture binding
and one draw call.  So each buffer is updated once per list, the draw calls of the
frame are those of all commands in order, their number is the sum of the command
counts, and every draw call follows the scissor call of its own command.  The
scissor box is computed in single precision.  For an integer clip rectangle
`(x, y, z, w)` with `x ≤ z` and `y ≤ w`, where `x` is in the range of a 32-bit
`int` and `height`, `height - w`, `z - x` and `w - y` have magnitude at most
`2 ^ 24`, the box is `(x, height - w, z - x, w - y)`: its width and height are
not negative, its right edge is `z`, its bottom edge `height - w` and its top edge
`height - y`. -/
theorem frame_draws_every_command (f : Frame) (height x y z w : Int) :
    renderDrawData f.height f.draw_data =
      f.draw_data.CmdLists.flatMap (fun l =>
        vertexUpload l :: indexUpload l :: l.CmdBuffer.flatMap (fun c =>
          [scissorCall f.height c.ClipRect, .glBindTextureUnit 0 c.TextureId, drawCall c])) ∧
    (frameCalls f).filter (Call.isUpdateOf .handleVBO) =
      f.draw_data.CmdLists.map (fun l =>
        .glNamedBufferSubData .handleVBO 0 ((l.VtxBufferSize : Int) * 20) .vertices) ∧
    (frameCalls f).filter (Call.isUpdateOf .handleElements) =
      f.draw_data.CmdLists.map (fun l =>
        .glNamedBufferSubData .handleElements 0 ((l.IdxBufferSize : Int) * 2) .indices) ∧
    (frameCalls f).filter Call.isDraw =
      f.draw_data.CmdLists.flatMap (fun l => l.CmdBuffer.map drawCall) ∧
    ((frameCalls f).filter Call.isDraw).length =
      (f.draw_data.CmdLists.map (fun l => l.CmdBuffer.length)).sum ∧
    (frameCalls f).filter (fun c => c.isScissor || c.isDraw) =
      f.draw_data.CmdLists.flatMap (fun l => l.CmdBuffer.flatMap (fun c =>
        [scissorCall f.height c.ClipRect, drawCall c]))
      ++ [.glScissor (some 0) (some 0) (some f.width) (some f.height)] ∧
    (INT_MIN ≤ x → x ≤ INT_MAX → |height| ≤ 2 ^ 24 →
      |height - w| ≤ 2 ^ 24 → |z - x| ≤ 2 ^ 24 → |w - y| ≤ 2 ^ 24 → x ≤ z → y ≤ w →
      scissorCall height ⟨x, y, z, w⟩ =
        .glScissor (some x) (some (height - w)) (some (z - x)) (some (w - y)) ∧
      ∃ bx bottom bw bh : Int,
        scissorCall height ⟨x, y, z, w⟩ =
          .glScissor (some bx) (some bottom) (some bw) (some bh) ∧
        0 ≤ bw ∧ 0 ≤ bh ∧ bx = x ∧ bx + bw = z ∧
        bottom = height - w ∧ bottom + bh = height - y) := by
  have hdraw : (frameCalls f).filter Call.isDraw =
      f.draw_data.CmdLists.flatMap (fun l => l.CmdBuffer.map drawCall) := by
    rw [filter_frameCalls]
    simp only [filter_renderCmdList_draw]
    simp [Call.isDraw]
  refine ⟨rfl, ?_, ?_, hdraw, ?_, ?_, ?_⟩
  · rw [filter_frameCalls]
    simp only [filter_renderCmdList_vertex]
    simp only [vertexUpload, sizeof_ImDrawVert, flatMap_singleton_map]
    simp [Call.isUpdateOf]
  · rw [filter_frameCalls]
    simp only [filter_renderCmdList_index]
    simp only [indexUpload, sizeof_ImDrawIdx, flatMap_singleton_map]
    simp [Call.isUpdateOf]
  · rw [hdraw, length_flatMap_map]
    simp
  · rw [filter_frameCalls]
    simp only [filter_renderCmdList_scissor_draw]
    simp [Call.isDraw, Call.isScissor]
  · intro hx1 hx2 hh hb hwd hht hxz hyw
    have hsc := scissorCall_intCast height x y z w hx1 hx2 hh hb hwd hht
    refine ⟨hsc, x, height - w, z - x, w - y, hsc, ?_, ?_, rfl, ?_, rfl, ?_⟩ <;> omega

/-- C5 (amended) at a concrete frame: one command list with two draw commands gives
two draw calls, and on a framebuffer of height 768 the clip rectangle
`(10, 20, 110, 70)` gives the scissor box `(10, 698, 100, 50)`. -/
theorem frame_draws_every_command_witness :
    ((frameCalls
      { width := 1024, height := 768, events := [],
        draw_data :=
          { DisplayPos := ⟨0, 0⟩, DisplaySize := ⟨1024, 768⟩,
            CmdLists := [{ VtxBufferSize := 8, IdxBufferSize := 12,
                           CmdBuffer := [⟨⟨10, 20, 110, 70⟩, 1, 0, 0, 6⟩,
                                         ⟨⟨0, 0, 1024, 768⟩, 1, 4, 6, 6⟩] }] } }).filter
        Call.isDraw).length = 2 ∧
    scissorCall 768 ⟨10, 20, 110, 70⟩ =
      .glScissor (some 10) (some 698) (some 100) (some 50) := by
  have h := frame_draws_every_command
    { width := 1024, height := 768, events := [],
      draw_data :=
        { DisplayPos := ⟨0, 0⟩, DisplaySize := ⟨1024, 768⟩,
          CmdLists := [{ VtxBufferSize := 8, IdxBufferSize := 12,
                         CmdBuffer := [⟨⟨10, 20, 110, 70⟩, 1, 0, 0, 6⟩,
                                       ⟨⟨0, 0, 1024, 768⟩, 1, 4, 6, 6⟩] }] } }
    768 10 20 110 70
  refine ⟨h.2.2.2.2.1, ?_⟩
  have hs := (h.2.2.2.2.2.2 (by decide) (by decide) (by decide) (by decide) (by decide)
    (by decide) (by decide) (by decide)).1
  simpa using hs

/-- C5 fails as stated: the clip rectangle `(-16777215, 0, 16777216, 50)` has
integer coordinates that are `float` values inside the range of `int`, with
`x ≤ z` and `y ≤ w`, but its width 33554431 needs 25 bits: on a framebuffer of
height 768 the scissor box gets the width 33554432, so the box is not
`(x, height - w, z - x, w - y)` and its right edge is not `z`. -/
theorem scissor_box_rounds_wide_clip_rect :
    ((-16777215 : Int) ≤ 16777216 ∧ (0 : Int) ≤ 50) ∧
    scissorCall 768 ⟨-16777215, 0, 16777216, 50⟩ =
      .glScissor (some (-16777215)) (some 718) (some 33554432) (some 50) ∧
    scissorCall 768 ⟨-16777215, 0, 16777216, 50⟩ ≠
      .glScissor (some (-16777215)) (some (768 - 50)) (some (16777216 - (-16777215)))
        (some (50 - 0)) ∧
    (-16777215 : Int) + 33554432 ≠ 16777216 := by
  have hbox : scissorCall 768 ⟨-16777215, 0, 16777216, 50⟩ =
      .glScissor (some (-16777215)) (some 718) (some 33554432) (some 50) := by
    have hc := scissorCall_components 768 (-16777215) 0 16777216 50
    have hx : toInt (((-16777215 : Int)) : ℚ) = some (-16777215) :=
      toInt_intCast _ (by decide) (by decide)
    have hh : intToFloat 768 = some ((768 : Int) : ℚ) := roundF32_intCast 768 (by decide)
    have hb : fsub ((768 : Int) : ℚ) ((50 : Int) : ℚ) = some (((768 - 50 : Int)) : ℚ) :=
      fsub_intCast 768 50 (by decide)
    have hb2 : toInt (((768 - 50 : Int)) : ℚ) = some 718 :=
      toInt_intCast _ (by decide) (by decide)
    have hw : fsub ((16777216 : Int) : ℚ) ((-16777215 : Int) : ℚ) =
        some ((33554432 : Int) : ℚ) := by
      unfold fsub
      have he : (((16777216 : Int)) : ℚ) - (((-16777215 : Int)) : ℚ) = 33554431 := by norm_num
      rw [he, roundF32_33554431]
      norm_num
    have hw2 : toInt ((33554432 : Int) : ℚ) = some 33554432 :=
      toInt_intCast _ (by decide) (by decide)
    have ht : fsub ((50 : Int) : ℚ) ((0 : Int) : ℚ) = some (((50 - 0 : Int)) : ℚ) :=
      fsub_intCast 50 0 (by decide)
    have ht2 : toInt (((50 - 0 : Int)) : ℚ) = some 50 :=
      toInt_intCast _ (by decide) (by decide)
    rw [hx, hh, Option.some_bind, hb, Option.some_bind, hb2, hw, Option.some_bind, hw2, ht,
      Option.some_bind, ht2] at hc
    have hv : (⟨-16777215, 0, 16777216, 50⟩ : ImVec4) =
        ⟨((-16777215 : Int) : ℚ), ((0 : Int) : ℚ), ((16777216 : Int) : ℚ),
          ((50 : Int) : ℚ)⟩ := by
      norm_num
    rw [hv]
    exact hc
  refine ⟨⟨by decide, by decide⟩, hbox, ?_, by decide⟩
  rw [hbox]
  intro h
  injection h with _ _ h3 _
  exact absurd h3 (by decide)

end DrawCalls

end GraphicsCookBook
